import Mathlib

/-!
Verification of the `jls` license-verification library (src/lib.rs,
src/verification.rs).

The development shallowly embeds the two public operations of the crate,
`LicenseVerifier::new` and `LicenseVerifier::verify`, over a model of
`serde_json::Value`.  External library primitives that the crate treats as
trusted collaborators (serde deserialization, base64url decoding from the
`base64ct`/`jose` crates, `uuid::Uuid::parse_str`, chrono RFC-3339 parsing,
and the `rsa` crate's PKCS#1 v1.5 verification) are modelled as executable
Lean functions at the fidelity the verified properties need; the raw
RSA/SHA-512 check itself is kept abstract as a boolean-valued parameter.

Model restrictions (documented, not affecting any claim):
* JSON numbers are modelled as integers; fractional/exponent literals are
  outside the model (the crate's test data and the verified license shape
  use none).
* `\u` string escapes with lone surrogates are rejected, as serde_json does.
-/

/-- Model of `serde_json::Value`.  Objects are association lists of fields;
values produced by the modelled text parser keep their fields sorted by key
with duplicates collapsed, mirroring the `BTreeMap` representation that
`serde_json` uses by default. -/
inductive Json where
  | null
  | bool (b : Bool)
  | num (n : Int)
  | str (s : String)
  | arr (xs : List Json)
  | obj (fields : List (String × Json))
deriving Inhabited

namespace Json

mutual

/-- Structural equality on `Json`, mirroring `PartialEq` for
`serde_json::Value`. -/
def eqv : Json → Json → Bool
  | .bool x, .bool y => x == y
  | .num x, .num y => x == y
  | .str x, .str y => x == y
  | .null, .null => true
  | .arr us, .arr ws => eqvArr us ws
  | .obj us, .obj ws => eqvObj us ws
  | _, _ => false

/-- Elementwise equality of `Json` arrays. -/
def eqvArr : List Json → List Json → Bool
  | u :: us, w :: ws => eqv u w && eqvArr us ws
  | [], [] => true
  | _, _ => false

/-- Elementwise equality of `Json` object field lists. -/
def eqvObj : List (String × Json) → List (String × Json) → Bool
  | (n, u) :: us, (m, w) :: ws => n == m && eqv u w && eqvObj us ws
  | [], [] => true
  | _, _ => false

end

end Json

mutual

/-- `Json.eqv` decides propositional equality. -/
theorem Json.eqv_iff : ∀ u w : Json, Json.eqv u w = true ↔ u = w
  | .bool _, .bool _ => by simp [Json.eqv]
  | .num _, .num _ => by simp [Json.eqv]
  | .str _, .str _ => by simp [Json.eqv]
  | .null, .null => by simp [Json.eqv]
  | .arr us, .arr ws => by
      simp only [Json.eqv, Json.eqvArr_iff us ws, Json.arr.injEq]
  | .obj us, .obj ws => by
      simp only [Json.eqv, Json.eqvObj_iff us ws, Json.obj.injEq]
  | .bool _, .null | .num _, .null | .str _, .null | .arr _, .null | .obj _, .null
  | .null, .bool _ | .num _, .bool _ | .str _, .bool _ | .arr _, .bool _ | .obj _, .bool _
  | .null, .num _ | .bool _, .num _ | .str _, .num _ | .arr _, .num _ | .obj _, .num _
  | .null, .str _ | .bool _, .str _ | .num _, .str _ | .arr _, .str _ | .obj _, .str _
  | .null, .arr _ | .bool _, .arr _ | .num _, .arr _ | .str _, .arr _ | .obj _, .arr _
  | .null, .obj _ | .bool _, .obj _ | .num _, .obj _ | .str _, .obj _ | .arr _, .obj _ => by
      simp [Json.eqv]

/-- `Json.eqvArr` decides propositional equality. -/
theorem Json.eqvArr_iff : ∀ us ws : List Json, Json.eqvArr us ws = true ↔ us = ws
  | u :: us, w :: ws => by
      simp [Json.eqvArr, Json.eqv_iff u w, Json.eqvArr_iff us ws]
  | [], [] => by simp [Json.eqvArr]
  | [], _ :: _ => by simp [Json.eqvArr]
  | _ :: _, [] => by simp [Json.eqvArr]

/-- `Json.eqvObj` decides propositional equality. -/
theorem Json.eqvObj_iff :
    ∀ us ws : List (String × Json), Json.eqvObj us ws = true ↔ us = ws
  | (n, u) :: us, (m, w) :: ws => by
      simp [Json.eqvObj, Json.eqv_iff u w, Json.eqvObj_iff us ws, and_assoc]
  | [], [] => by simp [Json.eqvObj]
  | [], _ :: _ => by simp [Json.eqvObj]
  | _ :: _, [] => by simp [Json.eqvObj]

end

instance : DecidableEq Json := fun u w =>
  decidable_of_iff (Json.eqv u w = true) (Json.eqv_iff u w)

/-- First-match lookup of a key among a JSON object's fields.  Values coming
from `serde_json` never carry duplicate keys, so first-match agrees with map
lookup. -/
def lookupField : List (String × Json) → String → Option Json
  | [], _ => none
  | (k, v) :: rest, key => if k = key then some v else lookupField rest key

/-- `Value::get` on objects / serde field access: `none` when the value is
not an object or the key is absent. -/
def jsonLookup (j : Json) (key : String) : Option Json :=
  match j with
  | .obj fields => lookupField fields key
  | _ => none

/-- `Value::as_object`, returning the field list. -/
def Json.asObject : Json → Option (List (String × Json))
  | .obj fields => some fields
  | _ => none

/-- `Value::as_str`. -/
def Json.asStr : Json → Option String
  | .str s => some s
  | _ => none

/-- Value of one base64url alphabet character (RFC 4648 §5), `none` for
characters outside the alphabet (including the padding character). -/
def b64Val (c : Char) : Option Nat :=
  let n := c.toNat
  if 65 ≤ n ∧ n ≤ 90 then some (n - 65)
  else if 97 ≤ n ∧ n ≤ 122 then some (n - 97 + 26)
  else if 48 ≤ n ∧ n ≤ 57 then some (n - 48 + 52)
  else if c = '-' then some 62
  else if c = '_' then some 63
  else none

/-- Strict unpadded base64url decoding, as `base64ct::Base64UrlUnpadded`
(used by the `jose` crates for all segments): rejects padding characters,
lengths `≡ 1 (mod 4)`, and nonzero trailing bits. -/
def b64urlDecodeList : List Char → Option (List Nat)
  | [] => some []
  | [_] => none
  | [a, b] => do
      let va ← b64Val a
      let vb ← b64Val b
      if vb % 16 = 0 then pure [va * 4 + vb / 16] else none
  | [a, b, c] => do
      let va ← b64Val a
      let vb ← b64Val b
      let vc ← b64Val c
      if vc % 4 = 0 then pure [va * 4 + vb / 16, vb % 16 * 16 + vc / 4] else none
  | a :: b :: c :: d :: rest => do
      let va ← b64Val a
      let vb ← b64Val b
      let vc ← b64Val c
      let vd ← b64Val d
      let tail ← b64urlDecodeList rest
      pure ((va * 4 + vb / 16) :: (vb % 16 * 16 + vc / 4) :: (vc % 4 * 64 + vd) :: tail)

/-- Strict unpadded base64url decoding of a string to its byte sequence. -/
def b64urlDecode (s : String) : Option (List Nat) :=
  b64urlDecodeList s.data

/-- Strict UTF-8 decoding of a byte sequence (rejects overlong forms,
surrogate code points and out-of-range sequences), as the UTF-8 validation
`serde_json` performs on string data. -/
def utf8Decode : List Nat → Option (List Char)
  | [] => some []
  | b :: rest =>
    if b < 0x80 then
      (utf8Decode rest).map (fun cs => Char.ofNat b :: cs)
    else if b < 0xC2 then none
    else if b < 0xE0 then
      match rest with
      | b1 :: rest' =>
        if 0x80 ≤ b1 ∧ b1 < 0xC0 then
          (utf8Decode rest').map (fun cs => Char.ofNat ((b - 0xC0) * 64 + (b1 - 0x80)) :: cs)
        else none
      | [] => none
    else if b < 0xF0 then
      match rest with
      | b1 :: b2 :: rest' =>
        if 0x80 ≤ b1 ∧ b1 < 0xC0 ∧ 0x80 ≤ b2 ∧ b2 < 0xC0 then
          let c := (b - 0xE0) * 4096 + (b1 - 0x80) * 64 + (b2 - 0x80)
          if 0x800 ≤ c ∧ ¬(0xD800 ≤ c ∧ c ≤ 0xDFFF) then
            (utf8Decode rest').map (fun cs => Char.ofNat c :: cs)
          else none
        else none
      | _ => none
    else if b < 0xF5 then
      match rest with
      | b1 :: b2 :: b3 :: rest' =>
        if 0x80 ≤ b1 ∧ b1 < 0xC0 ∧ 0x80 ≤ b2 ∧ b2 < 0xC0 ∧ 0x80 ≤ b3 ∧ b3 < 0xC0 then
          let c := (b - 0xF0) * 262144 + (b1 - 0x80) * 4096 + (b2 - 0x80) * 64 + (b3 - 0x80)
          if 0x10000 ≤ c ∧ c ≤ 0x10FFFF then
            (utf8Decode rest').map (fun cs => Char.ofNat c :: cs)
          else none
        else none
      | _ => none
    else none

/-- UTF-8 encoding of one character. -/
def utf8EncodeChar (c : Char) : List Nat :=
  let n := c.toNat
  if n < 0x80 then [n]
  else if n < 0x800 then [0xC0 + n / 64, 0x80 + n % 64]
  else if n < 0x10000 then [0xE0 + n / 4096, 0x80 + n / 64 % 64, 0x80 + n % 64]
  else [0xF0 + n / 262144, 0x80 + n / 4096 % 64, 0x80 + n / 64 % 64, 0x80 + n % 64]

/-- `str::as_bytes`: the UTF-8 byte sequence of a string. -/
def strBytes (s : String) : List Nat :=
  s.data.foldr (fun c acc => utf8EncodeChar c ++ acc) []

/-- Value of a hexadecimal digit, case-insensitive. -/
def hexVal (c : Char) : Option Nat :=
  let n := c.toNat
  if 48 ≤ n ∧ n ≤ 57 then some (n - 48)
  else if 97 ≤ n ∧ n ≤ 102 then some (n - 97 + 10)
  else if 65 ≤ n ∧ n ≤ 70 then some (n - 65 + 10)
  else none

/-- Consume exactly `n` hexadecimal digits, accumulating their value. -/
def takeHex : Nat → Nat → List Char → Option (Nat × List Char)
  | 0, acc, cs => some (acc, cs)
  | n + 1, acc, c :: cs => do
      let d ← hexVal c
      takeHex n (acc * 16 + d) cs
  | _ + 1, _, [] => none

/-- Consume exactly `n` decimal digits, accumulating their value. -/
def takeDec : Nat → Nat → List Char → Option (Nat × List Char)
  | 0, acc, cs => some (acc, cs)
  | n + 1, acc, c :: cs =>
      if 48 ≤ c.toNat ∧ c.toNat ≤ 57 then takeDec n (acc * 10 + (c.toNat - 48)) cs
      else none
  | _ + 1, _, [] => none

/-- JSON insignificant whitespace, as accepted by `serde_json`. -/
def isJsonWs (c : Char) : Bool :=
  c = ' ' || c = '\t' || c = '\n' || c = '\r'

/-- Skip leading JSON whitespace. -/
def skipWs : List Char → List Char
  | [] => []
  | c :: cs => if isJsonWs c then skipWs cs else c :: cs

/-- Byte-wise (equivalently, code-point-wise) lexicographic order on
strings, the order of `BTreeMap<String, Value>` keys. -/
def charListLt : List Char → List Char → Bool
  | [], [] => false
  | [], _ :: _ => true
  | _ :: _, [] => false
  | a :: as, b :: bs =>
      if a.toNat < b.toNat then true
      else if a.toNat = b.toNat then charListLt as bs
      else false

/-- Insertion into a key-sorted association list, replacing the value when
the key is already present: `BTreeMap::insert`. -/
def insertField (k : String) (v : Json) : List (String × Json) → List (String × Json)
  | [] => [(k, v)]
  | (k', v') :: rest =>
      if charListLt k.data k'.data then (k, v) :: (k', v') :: rest
      else if k = k' then (k, v) :: rest
      else (k', v') :: insertField k v rest

/-- Build a JSON object map from fields in textual order:
`BTreeMap` construction, later duplicates replacing earlier ones. -/
def buildObj (entries : List (String × Json)) : List (String × Json) :=
  entries.foldl (fun m kv => insertField kv.1 kv.2 m) []

/-- Parse the remainder of a JSON string literal (after the opening quote):
returns the decoded content and the input after the closing quote.  Handles
the escapes `serde_json` accepts, including `\u` with surrogate pairs;
rejects unescaped control characters and lone surrogates. -/
def parseStringRest : Nat → List Char → Option (List Char × List Char)
  | 0, _ => none
  | _ + 1, [] => none
  | fuel + 1, c :: cs =>
    if c = '"' then some ([], cs)
    else if c = '\\' then
      match cs with
      | [] => none
      | e :: cs' =>
        if e = '"' then (parseStringRest fuel cs').map (fun p => ('"' :: p.1, p.2))
        else if e = '\\' then (parseStringRest fuel cs').map (fun p => ('\\' :: p.1, p.2))
        else if e = '/' then (parseStringRest fuel cs').map (fun p => ('/' :: p.1, p.2))
        else if e = 'b' then (parseStringRest fuel cs').map (fun p => (Char.ofNat 8 :: p.1, p.2))
        else if e = 'f' then (parseStringRest fuel cs').map (fun p => (Char.ofNat 12 :: p.1, p.2))
        else if e = 'n' then (parseStringRest fuel cs').map (fun p => ('\n' :: p.1, p.2))
        else if e = 'r' then (parseStringRest fuel cs').map (fun p => ('\r' :: p.1, p.2))
        else if e = 't' then (parseStringRest fuel cs').map (fun p => ('\t' :: p.1, p.2))
        else if e = 'u' then
          match takeHex 4 0 cs' with
          | none => none
          | some (h, cs'') =>
            if 0xD800 ≤ h ∧ h ≤ 0xDBFF then
              match cs'' with
              | '\\' :: 'u' :: cs3 =>
                match takeHex 4 0 cs3 with
                | none => none
                | some (l, cs4) =>
                  if 0xDC00 ≤ l ∧ l ≤ 0xDFFF then
                    let cp := 0x10000 + (h - 0xD800) * 1024 + (l - 0xDC00)
                    (parseStringRest fuel cs4).map (fun p => (Char.ofNat cp :: p.1, p.2))
                  else none
              | _ => none
            else if 0xDC00 ≤ h ∧ h ≤ 0xDFFF then none
            else (parseStringRest fuel cs'').map (fun p => (Char.ofNat h :: p.1, p.2))
        else none
    else if c.toNat < 0x20 then none
    else (parseStringRest fuel cs).map (fun p => (c :: p.1, p.2))

/-- Consume a nonempty run of decimal digits, accumulating its value. -/
def takeDigits : Nat → List Char → Nat × List Char
  | acc, c :: cs =>
      if 48 ≤ c.toNat ∧ c.toNat ≤ 57 then takeDigits (acc * 10 + (c.toNat - 48)) cs
      else (acc, c :: cs)
  | acc, [] => (acc, [])

/-- Parse a JSON integer literal (optional minus sign; no leading zeros).
Fractional or exponent literals are outside the model (see the header),
as are their float semantics. -/
def parseNumber : List Char → Option (Int × List Char)
  | cs =>
    let (neg, cs₀) :=
      match cs with
      | '-' :: rest => (true, rest)
      | _ => (false, cs)
    match cs₀ with
    | c :: cs₁ =>
      if c = '0' then
        match cs₁ with
        | d :: _ =>
          if (48 ≤ d.toNat ∧ d.toNat ≤ 57) ∨ d = '.' ∨ d = 'e' ∨ d = 'E' then none
          else some (0, cs₁)
        | [] => some (0, [])
      else if 49 ≤ c.toNat ∧ c.toNat ≤ 57 then
        let (v, cs₂) := takeDigits (c.toNat - 48) cs₁
        match cs₂ with
        | d :: _ => if d = '.' ∨ d = 'e' ∨ d = 'E' then none
                    else some (if neg then -(v : Int) else (v : Int), cs₂)
        | [] => some (if neg then -(v : Int) else (v : Int), [])
      else none
    | [] => none

/-- Expect a fixed sequence of characters. -/
def expectChars : List Char → List Char → Option (List Char)
  | [], cs => some cs
  | e :: es, c :: cs => if c = e then expectChars es cs else none
  | _ :: _, [] => none

mutual

/-- Parse one JSON value (leading whitespace allowed), returning the value
and the remaining input.  Fuel-based recursion; the callers always supply
enough fuel for any input that `serde_json` itself accepts (whose recursion
depth is capped at 128). -/
def parseValue : Nat → List Char → Option (Json × List Char)
  | 0, _ => none
  | fuel + 1, cs =>
    match skipWs cs with
    | [] => none
    | c :: cs' =>
      if c = 'n' then (expectChars ['u', 'l', 'l'] cs').map (fun r => (Json.null, r))
      else if c = 't' then (expectChars ['r', 'u', 'e'] cs').map (fun r => (Json.bool true, r))
      else if c = 'f' then (expectChars ['a', 'l', 's', 'e'] cs').map (fun r => (Json.bool false, r))
      else if c = '"' then
        (parseStringRest (cs'.length + 1) cs').map (fun p => (Json.str ⟨p.1⟩, p.2))
      else if c = '[' then
        match skipWs cs' with
        | ']' :: rest => some (Json.arr [], rest)
        | cs'' => (parseArrayItems fuel cs'').map (fun p => (Json.arr p.1, p.2))
      else if c = '{' then
        match skipWs cs' with
        | '}' :: rest => some (Json.obj [], rest)
        | cs'' => (parseObjItems fuel cs'').map (fun p => (Json.obj (buildObj p.1), p.2))
      else
        (parseNumber (c :: cs')).map (fun p => (Json.num p.1, p.2))

/-- Parse the comma-separated items of a JSON array, up to and including the
closing bracket. -/
def parseArrayItems : Nat → List Char → Option (List Json × List Char)
  | 0, _ => none
  | fuel + 1, cs => do
    let (v, rest) ← parseValue fuel cs
    match skipWs rest with
    | ',' :: rest' => (parseArrayItems fuel rest').map (fun p => (v :: p.1, p.2))
    | ']' :: rest' => some ([v], rest')
    | _ => none

/-- Parse the comma-separated entries of a JSON object, up to and including
the closing brace; entries are returned in textual order. -/
def parseObjItems : Nat → List Char → Option (List (String × Json) × List Char)
  | 0, _ => none
  | fuel + 1, cs =>
    match skipWs cs with
    | '"' :: cs' => do
      let (key, afterKey) ← parseStringRest (cs'.length + 1) cs'
      match skipWs afterKey with
      | ':' :: afterColon => do
        let (v, rest) ← parseValue fuel afterColon
        match skipWs rest with
        | ',' :: rest' => (parseObjItems fuel rest').map (fun p => ((⟨key⟩, v) :: p.1, p.2))
        | '}' :: rest' => some ([(⟨key⟩, v)], rest')
        | _ => none
      | _ => none
    | _ => none

end

/-- Parse a complete JSON document from characters: one value followed only
by whitespace. -/
def jsonParseChars (cs : List Char) : Option Json := do
  let (v, rest) ← parseValue (cs.length + 1) cs
  match skipWs rest with
  | [] => pure v
  | _ => none

/-- `serde_json::from_slice` at the `Value` level: UTF-8 decode then parse. -/
def jsonParseBytes (bs : List Nat) : Option Json :=
  (utf8Decode bs).bind jsonParseChars

/-- Parse the hyphenated UUID form `xxxxxxxx-xxxx-xxxx-xxxx-xxxxxxxxxxxx`
(case-insensitive hex) into its 128-bit value. -/
def parseUuidHyphenated (cs : List Char) : Option Nat := do
  let (a, r1) ← takeHex 8 0 cs
  match r1 with
  | '-' :: r2 =>
    let (b, r3) ← takeHex 4 0 r2
    match r3 with
    | '-' :: r4 =>
      let (c, r5) ← takeHex 4 0 r4
      match r5 with
      | '-' :: r6 =>
        let (d, r7) ← takeHex 4 0 r6
        match r7 with
        | '-' :: r8 =>
          let (e, r9) ← takeHex 12 0 r8
          match r9 with
          | [] => pure ((((a * 65536 + b) * 65536 + c) * 65536 + d) * 281474976710656 + e)
          | _ :: _ => none
        | _ => none
      | _ => none
    | _ => none
  | _ => none

/-- Model of `uuid::Uuid::parse_str` / `try_parse`, which dispatches on the
input length: 32 = simple form, 36 = hyphenated, 38 = braced hyphenated,
45 = URN-prefixed hyphenated.  Hex digits are case-insensitive. -/
def parseUuid (s : String) : Option Nat :=
  let cs := s.data
  if cs.length = 32 then
    match takeHex 32 0 cs with
    | some (v, []) => some v
    | _ => none
  else if cs.length = 36 then parseUuidHyphenated cs
  else if cs.length = 38 then
    match cs with
    | '{' :: rest => if rest.getLast? = some '}' then parseUuidHyphenated rest.dropLast else none
    | _ => none
  else if cs.length = 45 then
    (expectChars ['u', 'r', 'n', ':', 'u', 'u', 'i', 'd', ':'] cs).bind parseUuidHyphenated
  else none

/-- Model of `chrono::DateTime<Utc>`: an instant as seconds since the Unix
epoch plus the subsecond nanoseconds (which exceed `10^9` on a leap
second, as in chrono's internal representation).  Equality of two
`DateTime<Utc>` values compares exactly these components. -/
structure DateTimeUtc where
  secs : Int
  nanos : Nat
deriving DecidableEq

/-- Gregorian leap-year rule. -/
def isLeapYear (y : Nat) : Bool :=
  (y % 4 = 0 && y % 100 ≠ 0) || y % 400 = 0

/-- Number of days of month `m` in year `y`. -/
def daysInMonth (y m : Nat) : Nat :=
  if m = 2 then (if isLeapYear y then 29 else 28)
  else if m = 4 ∨ m = 6 ∨ m = 9 ∨ m = 11 then 30
  else 31

/-- Days from 1970-01-01 to `y-m-d` (proleptic Gregorian), the standard
days-from-civil computation shifted by 400 years so all intermediate
arithmetic stays in `Nat`. -/
def epochDays (y m d : Nat) : Int :=
  let yAdj := y + 400 - (if m ≤ 2 then 1 else 0)
  let era := yAdj / 400
  let yoe := yAdj % 400
  let mp := (m + 9) % 12
  let doy := (153 * mp + 2) / 5 + (d - 1)
  let doe := yoe * 365 + yoe / 4 - yoe / 100 + doy
  (era * 146097 + doe : Int) - 865565

/-- Parse an optional fractional-second part: a dot followed by at least one
digit; the first nine digits give the nanoseconds, further digits are
consumed and ignored (chrono's behaviour).  Without a dot, zero. -/
def parseFrac : List Char → Option (Nat × List Char)
  | '.' :: rest =>
      match rest.takeWhile Char.isDigit, rest.dropWhile Char.isDigit with
      | [], _ => none
      | ds, rest' =>
          let first9 := ds.take 9
          let v := first9.foldl (fun acc c => acc * 10 + (c.toNat - 48)) 0
          some (v * 10 ^ (9 - first9.length), rest')
  | cs => some (0, cs)

/-- Parse a numeric UTC offset body `HH[:]MM` after the sign; chrono checks
only that the total is less than one day (`FixedOffset::east_opt`). -/
def parseNumOffset (sign : Int) (cs : List Char) : Option (Int × List Char) := do
  let (hh, r1) ← takeDec 2 0 cs
  let r2 := match r1 with
            | ':' :: r => r
            | r => r
  let (mm, r3) ← takeDec 2 0 r2
  let secs := hh * 3600 + mm * 60
  if secs < 86400 then pure (sign * secs, r3) else none

/-- Parse an RFC-3339 timezone offset: `Z`/`z` or a signed `HH:MM`. -/
def parseOffset : List Char → Option (Int × List Char)
  | 'Z' :: rest => some (0, rest)
  | 'z' :: rest => some (0, rest)
  | '+' :: rest => parseNumOffset 1 rest
  | '-' :: rest => parseNumOffset (-1) rest
  | _ => none

/-- Model of the `chrono` RFC-3339 parsing behind
`Deserialize for DateTime<Utc>`: `YYYY-MM-DD` then `T`/`t`/space, then
`HH:MM:SS` with optional fraction, then a mandatory offset; the instant is
normalised to UTC.  A leap second (`SS = 60`) is stored, as in chrono, as
second 59 with the nanosecond field increased by `10^9`. -/
def parseDateTime (s : String) : Option DateTimeUtc :=
  match takeDec 4 0 s.data with
  | none => none
  | some (y, r1) =>
  match expectChars ['-'] r1 with
  | none => none
  | some r2 =>
  match takeDec 2 0 r2 with
  | none => none
  | some (mo, r3) =>
  match expectChars ['-'] r3 with
  | none => none
  | some r4 =>
  match takeDec 2 0 r4 with
  | none => none
  | some (d, r5) =>
  match r5 with
  | [] => none
  | sep :: r6 =>
  if sep = 'T' ∨ sep = 't' ∨ sep = ' ' then
    match takeDec 2 0 r6 with
    | none => none
    | some (h, r7) =>
    match expectChars [':'] r7 with
    | none => none
    | some r8 =>
    match takeDec 2 0 r8 with
    | none => none
    | some (mi, r9) =>
    match expectChars [':'] r9 with
    | none => none
    | some r10 =>
    match takeDec 2 0 r10 with
    | none => none
    | some (sec, r11) =>
    match parseFrac r11 with
    | none => none
    | some (nanos, r12) =>
    match parseOffset r12 with
    | none => none
    | some (offset, r13) =>
    if r13 = [] ∧ 1 ≤ mo ∧ mo ≤ 12 ∧ 1 ≤ d ∧ d ≤ daysInMonth y mo ∧
        h ≤ 23 ∧ mi ≤ 59 ∧ sec ≤ 60 then
      let secAdj : Nat := if sec = 60 then 59 else sec
      let nanosAdj : Nat := if sec = 60 then nanos + 1000000000 else nanos
      some ⟨epochDays y mo d * 86400 + h * 3600 + mi * 60 + secAdj - offset, nanosAdj⟩
    else none
  else none

/-- The `License` record of src/lib.rs: `id: Uuid`,
`expiration_date: DateTime<Utc>` (wire name `expirationDate`),
`custom_data: serde_json::Value` (wire name `customData`).  The derived
`PartialEq`/`Eq` is structural equality of all three fields. -/
structure License where
  id : Nat
  expirationDate : DateTimeUtc
  customData : Json
deriving DecidableEq

/-- The serde-derived deserialization of `License` from a JSON value: all
three fields required (`id` a UUID string, `expirationDate` an RFC-3339
string, `customData` arbitrary), unknown fields ignored. -/
def parseLicense (j : Json) : Option License :=
  match j with
  | .obj fields =>
    match lookupField fields "id", lookupField fields "expirationDate",
        lookupField fields "customData" with
    | some (.str i), some (.str ed), some cd => do
        let u ← parseUuid i
        let t ← parseDateTime ed
        pure ⟨u, t, cd⟩
    | _, _, _ => none
  | _ => none

/-- `serde_json::from_slice::<License>` (line 82 of src/verification.rs):
UTF-8 decode, JSON parse, then `License` deserialization. -/
def parseLicenseBytes (bs : List Nat) : Option License :=
  (jsonParseBytes bs).bind parseLicense

/-- The `VerifiableLicense` record of src/lib.rs: a `License` in clear plus
the raw `licenseValidation` JSON value. -/
structure VerifiableLicense where
  license : License
  licenseValidation : Json
deriving DecidableEq

/-- The serde-derived deserialization of `VerifiableLicense` from a JSON
value (line 54 of src/verification.rs): both fields required, unknown
fields ignored; `licenseValidation` is kept as a raw value. -/
def parseVerifiableLicense (j : Json) : Option VerifiableLicense :=
  match jsonLookup j "license", jsonLookup j "licenseValidation" with
  | some lj, some lv => (parseLicense lj).map (fun l => ⟨l, lv⟩)
  | _, _ => none

/-- The signing-algorithm identifiers of the `jose-jwa` `Signing` enum;
an `alg` value outside this set fails deserialization. -/
def signingAlgs : List String :=
  ["ES256", "ES256K", "ES384", "ES512", "EdDSA", "HS256", "HS384", "HS512",
   "PS256", "PS384", "PS512", "RS256", "RS384", "RS512", "none"]

/-- One `jose_jws::Signature`: optional protected header (stored decoded),
optional unprotected header, mandatory signature bytes. -/
structure JwsSignature where
  protHeader : Option Json
  header : Option Json
  signature : List Nat
deriving DecidableEq, Inhabited

/-- `jose_jws::Flattened`: optional payload bytes plus one flattened
`Signature`. -/
structure JwsFlattened where
  payload : Option (List Nat)
  signature : JwsSignature
deriving DecidableEq, Inhabited

/-- `jose_jws::General`: optional payload bytes plus a `signatures` array. -/
structure JwsGeneral where
  payload : Option (List Nat)
  signatures : List JwsSignature
deriving DecidableEq, Inhabited

/-- `jose_jws::Jws`, an untagged enum over the two envelope shapes. -/
inductive Jws where
  | general (g : JwsGeneral)
  | flattened (f : JwsFlattened)
deriving DecidableEq, Inhabited

/-- Deserialize an optional base64url-bytes field (serde `Option<Bytes>`):
absent or `null` gives the none value; a string must decode; any other
value is an error. -/
def parseOptBytesField (fields : List (String × Json)) (key : String) :
    Option (Option (List Nat)) :=
  match lookupField fields key with
  | none => some none
  | some .null => some none
  | some (.str s) => (b64urlDecode s).map some
  | some _ => none

/-- Whether a decoded JOSE header carries a recognizable `alg` value (absent
is accepted; a non-string or unrecognized name fails). -/
def headerAlgOk (j : Json) : Bool :=
  match jsonLookup j "alg" with
  | none => true
  | some (.str a) => signingAlgs.contains a
  | some _ => false

/-- Deserialize a protected-header segment: base64url of a UTF-8 JSON
object whose `alg`, when present, is recognized; unknown members are
accepted. -/
def parseProtHeader (s : String) : Option Json :=
  match b64urlDecode s with
  | none => none
  | some bs =>
  match jsonParseBytes bs with
  | some (.obj fields) =>
      if headerAlgOk (.obj fields) then some (.obj fields) else none
  | _ => none

/-- Deserialize the optional `protected` field of a signature object. -/
def parseOptProtField (fields : List (String × Json)) : Option (Option Json) :=
  match lookupField fields "protected" with
  | none => some none
  | some .null => some none
  | some (.str s) => (parseProtHeader s).map some
  | some _ => none

/-- Deserialize the optional unprotected `header` field of a signature
object (must be a JSON object when present). -/
def parseOptHeaderField (fields : List (String × Json)) : Option (Option Json) :=
  match lookupField fields "header" with
  | none => some none
  | some .null => some none
  | some (.obj o) => some (some (.obj o))
  | some _ => none

/-- Deserialize the `Signature` members found among `fields` (the flattened
members of a `Flattened` value, or one entry of `signatures`): the
`signature` field is mandatory base64url. -/
def parseJwsSignatureFields (fields : List (String × Json)) : Option JwsSignature :=
  match parseOptProtField fields with
  | none => none
  | some ph =>
  match parseOptHeaderField fields with
  | none => none
  | some hd =>
  match lookupField fields "signature" with
  | some (.str s) =>
      match b64urlDecode s with
      | some sig => some ⟨ph, hd, sig⟩
      | none => none
  | _ => none

/-- Deserialize `jose_jws::Flattened` from a JSON value.  Unknown fields
are ignored (the `Signature` is flattened into the same object). -/
def parseJwsFlattened (j : Json) : Option JwsFlattened :=
  match j with
  | .obj fields =>
    match parseOptBytesField fields "payload" with
    | none => none
    | some pl => (parseJwsSignatureFields fields).map (fun sig => ⟨pl, sig⟩)
  | _ => none

/-- Deserialize each entry of a `signatures` array as a signature object. -/
def parseJwsSignatureList : List Json → Option (List JwsSignature)
  | [] => some []
  | .obj fields :: rest =>
    match parseJwsSignatureFields fields with
    | none => none
    | some s => (parseJwsSignatureList rest).map (fun ss => s :: ss)
  | _ :: _ => none

/-- Deserialize `jose_jws::General` from a JSON value: requires a
`signatures` array. -/
def parseJwsGeneral (j : Json) : Option JwsGeneral :=
  match j with
  | .obj fields =>
    match parseOptBytesField fields "payload" with
    | none => none
    | some pl =>
    match lookupField fields "signatures" with
    | some (.arr sigs) => (parseJwsSignatureList sigs).map (fun ss => ⟨pl, ss⟩)
    | _ => none
  | _ => none

/-- Deserialize the untagged `jose_jws::Jws` enum: the `General` shape is
tried first, then `Flattened` (serde untagged semantics; the two shapes are
disjoint on the inputs the verifier inspects, since `General` demands a
`signatures` member and `Flattened` a `signature` member). -/
def parseJws (j : Json) : Option Jws :=
  match parseJwsGeneral j with
  | some g => some (.general g)
  | none => (parseJwsFlattened j).map .flattened

/-- Big-endian byte-string value. -/
def bytesToNat (bs : List Nat) : Nat :=
  bs.foldl (fun acc b => acc * 256 + b) 0

/-- The validated RSA public key held by the verifier
(`rsa::RsaPublicKey`). -/
structure RsaPublicKey where
  n : Nat
  e : Nat
deriving DecidableEq, Inhabited

/-- The literal value of `2 ^ 4096` (kept as a literal so that concrete
evaluation never unfolds the power recursively). -/
def pow2_4096 : Nat :=
  1044388881413152506691752710716624382579964249047383780384233483283953907971557456848826811934997558340890106714439262837987573438185793607263236087851365277945956976543709998340361590134383718314428070011855946226376318839397712745672334684344586617496807908705803704071284048740118609114467977783598029006686938976881787785946905630190260940599579453432823469303026696443059025015972399867714215541693835559885291486318237914434496734087811872639496475100189041349008417061675093668333850551032972088269550769983616369411933015213796825837188091833656751221318492846368125550225998300412344784862595674492194617023806505913245610825731835380087608622102834270197698202313169017678006675195485079921636419370285375124784014907159135459982790513399611551794271106831134090584272884279791554849782954323534517065223269061394905987693002122963395687782878948440616007412945674919823050571642377154816321380631045902916136926708342856440730447899971901781465763473223850267253059899795996090799469201774624817718449867455659250178329070473119433165550807568221846571746373296884912819520317457002440926616910874148385078411929804522981857338977648103126085903001302413467189726673216491511131602920781738033436090243804708340403154190336

/-- `pow2_4096` is what it claims to be. -/
theorem pow2_4096_eq : pow2_4096 = 2 ^ 4096 := by norm_num [pow2_4096]

/-- Model of the `rsa` crate's `check_public` validity conditions enforced
by `RsaPublicKey::new`: modulus odd and at most `MAX_SIZE = 4096` bits,
exponent odd, at least 3, below the modulus and within the crate's
small-exponent bound (`2 ^ 33 = 8589934592`). -/
def rsaCheckPublic (n e : Nat) : Bool :=
  if n < pow2_4096 ∧ n % 2 = 1 ∧ e % 2 = 1 ∧ 3 ≤ e ∧ e < n ∧ e ≤ 8589934592
  then true else false

/-- `RsaPublicKey::try_from(&jose_jwk::Rsa)`: interpret the stored modulus
and exponent byte strings big-endian and validate them. -/
def rsaTryFrom (nBytes eBytes : List Nat) : Option RsaPublicKey :=
  let n := bytesToNat nBytes
  let e := bytesToNat eBytes
  if rsaCheckPublic n e then some ⟨n, e⟩ else none

/-- `jose_jwk::Key`: the key material variants, keeping the members the
verifier's decisions depend on (the RSA parameter byte strings; for other
kinds just the discriminating data). -/
inductive JwkKey where
  | rsa (n e : List Nat)
  | ec (crv : String)
  | oct (k : List Nat)
  | okp (crv : String)
deriving DecidableEq, Inhabited

/-- `jose_jwk::Jwk`: key material plus the optional `alg` parameter. -/
structure Jwk where
  key : JwkKey
  alg : Option String
deriving DecidableEq

/-- The elliptic curves `jose_jwk` recognizes for `EC` keys. -/
def ecCurves : List String := ["P-256", "P-384", "P-521", "secp256k1"]

/-- The curves `jose_jwk` recognizes for `OKP` keys. -/
def okpCurves : List String := ["Ed25519", "Ed448", "X25519", "X448"]

/-- Deserialize the optional `alg` parameter of a JWK (must be a recognized
algorithm name when present). -/
def parseJwkAlg (fields : List (String × Json)) : Option (Option String) :=
  match lookupField fields "alg" with
  | none => some none
  | some .null => some none
  | some (.str a) => if signingAlgs.contains a then some (some a) else none
  | some _ => none

/-- A mandatory string member of a JWK object. -/
def parseJwkStrField (fields : List (String × Json)) (key : String) : Option String :=
  match lookupField fields key with
  | some (.str s) => some s
  | _ => none

/-- A mandatory base64url-bytes member of a JWK object. -/
def parseJwkB64Field (fields : List (String × Json)) (key : String) : Option (List Nat) :=
  match lookupField fields key with
  | some (.str s) => b64urlDecode s
  | _ => none

/-- Deserialize the key material of a JWK, discriminated by `kty`: RSA
needs `n` and `e`, EC needs a recognized `crv` with `x` and `y`, oct needs
`k`, OKP needs a recognized `crv` with `x`; anything else fails. -/
def parseJwkKey (fields : List (String × Json)) : Option JwkKey :=
  match lookupField fields "kty" with
  | some (.str kty) =>
    if kty = "RSA" then
      match parseJwkB64Field fields "n", parseJwkB64Field fields "e" with
      | some n, some e => some (.rsa n e)
      | _, _ => none
    else if kty = "EC" then
      match parseJwkStrField fields "crv", parseJwkB64Field fields "x",
          parseJwkB64Field fields "y" with
      | some crv, some _, some _ => if ecCurves.contains crv then some (.ec crv) else none
      | _, _, _ => none
    else if kty = "oct" then
      (parseJwkB64Field fields "k").map .oct
    else if kty = "OKP" then
      match parseJwkStrField fields "crv", parseJwkB64Field fields "x" with
      | some crv, some _ => if okpCurves.contains crv then some (.okp crv) else none
      | _, _ => none
    else none
  | _ => none

/-- `serde_json::from_value::<Jwk>` (line 30 of src/verification.rs):
the descriptor must be a JSON object with well-formed key material and
parameters; unknown members are ignored. -/
def parseJwk (j : Json) : Option Jwk :=
  match j with
  | .obj fields =>
    match parseJwkAlg fields with
    | none => none
    | some alg => (parseJwkKey fields).map (fun k => ⟨k, alg⟩)
  | _ => none

/-- `jose_jwk::crypto::KeyInfo::is_supported` for the key material against
`Algorithm::Signing(Signing::Rs512)`: an RSA key supports RS512 exactly
when its strength `n.len() / 16` (modulus byte-string length over 16) is at
least 32; no other key kind supports an RSA signing algorithm. -/
def keyIsSupportedRs512 : JwkKey → Bool
  | .rsa n _ => 32 ≤ n.length / 16
  | _ => false

/-- `Jwk::is_supported(&Algorithm::from(Signing::Rs512))` (line 33 of
src/verification.rs): the declared `alg` parameter, when present, must be
exactly RS512, and the key material must support RS512. -/
def jwkIsSupportedRs512 (k : Jwk) : Bool :=
  (match k.alg with
   | none => true
   | some a => a == "RS512") && keyIsSupportedRs512 k.key

/-- The error enum of `LicenseVerifier::new` (src/verification.rs
lines 18-22). -/
inductive LicenseVerifierError where
  | KeyIsNotJwk
  | KeyTypeNotSupported
deriving DecidableEq

/-- The error enum of `LicenseVerifier::verify` (src/verification.rs
lines 11-16). -/
inductive LicenseVerificationError where
  | InvalidVerifiableLicense
  | TamperedLicense
  | VerificationFailure
deriving DecidableEq

/-- `LicenseVerifier` (src/verification.rs lines 24-26): holds only the
validated RSA public key. -/
structure LicenseVerifier where
  rsaPublicKey : RsaPublicKey
deriving DecidableEq

/-- `LicenseVerifier::new` (src/verification.rs lines 29-48): parse the
descriptor as a JWK (`KeyIsNotJwk` on failure), require RS512 support
(`KeyTypeNotSupported` otherwise), then extract an RSA public key from the
RSA parameters (`KeyTypeNotSupported` when the key is not RSA or the
parameters are unusable). -/
def LicenseVerifier.new (publicKey : Json) : Except LicenseVerifierError LicenseVerifier :=
  match parseJwk publicKey with
  | none => .error .KeyIsNotJwk
  | some parsedPublicKey =>
  if !jwkIsSupportedRs512 parsedPublicKey then .error .KeyTypeNotSupported
  else
    match parsedPublicKey.key with
    | .rsa nBytes eBytes =>
      match rsaTryFrom nBytes eBytes with
      | none => .error .KeyTypeNotSupported
      | some rsaKey => .ok ⟨rsaKey⟩
    | _ => .error .KeyTypeNotSupported

/-- `LicenseVerifier::verify` (src/verification.rs lines 50-98), with the
trusted cryptographic primitive abstracted: `rsaVerify key msg sig` stands
for `VerifyingKey::<Sha512>::new(key).verify(msg, sig).is_ok()`, the
PKCS#1 v1.5 / SHA-512 check of the `rsa` crate.  (`Signature::try_from` on
a raw byte slice, line 90, is infallible in the `rsa` crate, so the error
mapping at line 91 has no failing case to model.)  The pipeline:
structural decode into `VerifiableLicense`; extraction of the verbatim
`protected` and `payload` segment strings; signing input
`protected ++ "." ++ payload`; `Jws` decode requiring the flattened shape;
payload bytes; `License` deserialization; tamper comparison against the
clear `license` field; cryptographic verification. -/
def LicenseVerifier.verify (rsaVerify : RsaPublicKey → List Nat → List Nat → Bool)
    (self : LicenseVerifier) (verifiableLicenseJson : Json) :
    Except LicenseVerificationError License :=
  match parseVerifiableLicense verifiableLicenseJson with
  | none => .error .InvalidVerifiableLicense
  | some verifiableLicense =>
  match verifiableLicense.licenseValidation.asObject with
  | none => .error .InvalidVerifiableLicense
  | some licenseValidationObj =>
  match (lookupField licenseValidationObj "protected").bind Json.asStr with
  | none => .error .InvalidVerifiableLicense
  | some protectedToVerify =>
  match (lookupField licenseValidationObj "payload").bind Json.asStr with
  | none => .error .InvalidVerifiableLicense
  | some payloadToVerify =>
  let dataToVerify := protectedToVerify ++ "." ++ payloadToVerify
  match parseJws verifiableLicense.licenseValidation with
  | none => .error .InvalidVerifiableLicense
  | some (.general _) => .error .InvalidVerifiableLicense
  | some (.flattened licenseValidation) =>
  match licenseValidation.payload with
  | none => .error .InvalidVerifiableLicense
  | some payloadSlice =>
  match parseLicenseBytes payloadSlice with
  | none => .error .InvalidVerifiableLicense
  | some protectedLicense =>
  if protectedLicense ≠ verifiableLicense.license then .error .TamperedLicense
  else if rsaVerify self.rsaPublicKey (strBytes dataToVerify)
      licenseValidation.signature.signature then .ok protectedLicense
  else .error .VerificationFailure

/-- Decidable equality of `Except` results (componentwise). -/
instance {e a : Type} [DecidableEq e] [DecidableEq a] : DecidableEq (Except e a) := fun x y =>
  match x, y with
  | .ok u, .ok w =>
      if h : u = w then isTrue (by rw [h]) else isFalse (by simp [h])
  | .error u, .error w =>
      if h : u = w then isTrue (by rw [h]) else isFalse (by simp [h])
  | .ok _, .error _ => isFalse (by simp)
  | .error _, .ok _ => isFalse (by simp)

set_option maxRecDepth 1000000

/-- The protected-header segment of the crate's known-good envelope
(decodes to the JSON header with alg RS512 and typ JWT). -/
def protectedSeg : String := "eyJhbGciOiJSUzUxMiIsInR5cCI6IkpXVCJ9"

/-- The payload segment of the known-good envelope (base64url of the
UTF-8 JSON serialization of the test license). -/
def payloadSeg : String :=
  "eyJpZCI6IjBiNWI4OGY1LWEyNjQtNGY5MC04NDA2LTUwYjAxZDk1MTVjOCIsImV4cGlyYXRpb25EYXRlIjoiMjAyNC0xMC0wMVQwMDowMDowMFoiLCJjdXN0b21EYXRhIjp7Im93bmVyIjoiSm9obiBEb2UifX0"

/-- The signature segment of the known-good envelope (512 bytes). -/
def signatureSeg : String :=
  "EZh1khxXXnB8bKNS5PZAOReIZ7OF0hoII5Xp-cpj6L5vwtLUOKRQAgiYymnZZDveYtzVrFyW4HoFtmZDQgoCy0n8G1grhhg0WCd9-WZ2iEIo8xEEPAUHqyD2r_UHFnJejbJZLoNfe4IFEtU_xSJ8dpVQqCxPHEMmngtio6Aedqh9JF7pNbjlBYmWewj59otEGvbvQR_-odKO78HM-oEVpaix3h3RPAfIpiKhijrUDBQ208PKi_NV3I3ALagu2k6HT38WzUwiy793j9CfTQhUQfsC3YyoED_Ku-buGKzo8i5DUxhSgAAmU79GXQFraD-qV_dIz4oGYPDIga2QUk-tpaAfVvu04LxZB-GtyH8_9vf7dXaxDULM5Jsm68aaCKhc1V7_cHKKkHkvP5YLZauX0ZajUacIbn2s9n36e_FB2ty4yx9aA7Na2HzDYYf10WsLahuseU5LxDQv1KysoccOZdA4ifTTtshld_hlNMxAizvgcwsEkjfAJP_QnHhjQ0r912JYqItczTmr3tbiYWR7Xw_y02Hz4JVqEs4qTO4oFIqhLREdoldf_MP7dFBoiPUJmN5r1zyQ6MGwdYTHNzX5zR9YUg2tDXskQeyOGoPqaCdWHr8Kofd4PboLX48sYf18mdGGwMotdDKTytZCyTTswNYFlaTtKNZYz5UZ6J-blx4"

/-- The modulus of the crate's 4096-bit test JWK, base64url. -/
def modulusB64 : String :=
  "ziWUk8mSfgyLjHt_9iqY3PrwkmbrGkfYKckFuYAtbaBG4RLdluDOJu0xyIhR9l4jOCWqlt_C1ks2ED8lY9kXBgIg5LQI6d1XhPOdoF-GlKFfpQGtWQ_l6Pkg3nMQSGZoW76ISuVhXebMk4x73y928-i_xCGzTUSpJYEAHQRF_hM_C5w2-Zm8u7cm5GlOxKlpVAmRP6mkWGRAR3C476MMn7gP4_PlzgA522O3QMqVXuL5tyL7zsDNkDwtrzz2WBgqmKPJKp3XhuJsbm2ytR9QHvHZ0FcxuUxx4xWMaFadSQc7fMShTCY_YNzHA5P_SMXIp5jwf-sqCUGFRssFw_3ZaZmSC0W70Er39Qb_PPXfrLL35N0uuxp0uIyuTWz-8Swbyu6jWWzwaeNi0aZuzGr3_uItjC1Dk8vSQTjsFA-S-Ww5RfXC7Jigqq03I9jwp2h5EONJf9QB8rmnYndtNepZ4DlFoC1_6kP2Z_TsYQCCyPRIa5ame0Sj_27VSLWJybJZgHc3Ky9msaSdT9y0qCX9oG-Vgt_CmMmMrED7s6LFEWyED6uBUFZJWCKPCwOA9PAjv7xovufykwUe3SyWfPTNYkPPSv6aY4riVFnvev4P3SWEY1OLkNh5LqOC97yR7m9FOkZFIbkgfI9tGBVcBfiGIkKI4_lYUVELslLxfAj7pz0"

/-- The clear-text license value of the known-good envelope. -/
def testLicenseJson : Json :=
  .obj [("customData", .obj [("owner", .str "John Doe")]),
        ("expirationDate", .str "2024-10-01T00:00:00Z"),
        ("id", .str "0b5b88f5-a264-4f90-8406-50b01d9515c8")]

/-- The `License` value both the clear field and the payload of the
known-good envelope decode to. -/
def testLicense : License :=
  ⟨15096784836624496443894557420725540296, ⟨1727740800, 0⟩,
    .obj [("owner", .str "John Doe")]⟩

/-- The mutated clear-text license of the crate's tamper test: the
expiration date moved to 2025-10-01 without re-signing. -/
def tamperedLicense : License :=
  ⟨15096784836624496443894557420725540296, ⟨1759276800, 0⟩,
    .obj [("owner", .str "John Doe")]⟩

/-- The fields of the known-good `licenseValidation` object. -/
def validationFields : List (String × Json) :=
  [("payload", .str payloadSeg), ("protected", .str protectedSeg),
   ("signature", .str signatureSeg)]

/-- The known-good `licenseValidation` object. -/
def validationJson : Json := .obj validationFields

/-- The crate's known-good envelope. -/
def validEnvelope : Json :=
  .obj [("license", testLicenseJson), ("licenseValidation", validationJson)]

/-- The crate's tampered envelope: clear license mutated, payload intact. -/
def tamperedEnvelope : Json :=
  .obj [("license",
          .obj [("customData", .obj [("owner", .str "John Doe")]),
                ("expirationDate", .str "2025-10-01T00:00:00Z"),
                ("id", .str "0b5b88f5-a264-4f90-8406-50b01d9515c8")]),
        ("licenseValidation", validationJson)]

/-- The `licenseValidation` object of the crate's misspelled-signature
test: the mandatory `signature` member is absent (spelled `signatura`). -/
def nonJwsValidationJson : Json :=
  .obj [("payload", .str payloadSeg), ("protected", .str protectedSeg),
        ("signatura", .str signatureSeg)]

/-- The crate's misspelled-signature-field envelope (`signatura`). -/
def nonJwsEnvelope : Json :=
  .obj [("license", testLicenseJson), ("licenseValidation", nonJwsValidationJson)]

/-- A protected-header segment declaring ES512 (from the crate's
non-RS512 test). -/
def es512ProtectedSeg : String := "eyJhbGciOiJFUzUxMiIsInR5cCI6IkpXVCJ9"

/-- The signature segment of the crate's non-RS512 test. -/
def es512SignatureSeg : String :=
  "3oezad8_xfSAn2AorlW09OCh_E2ztke4ziN96wC5lSDpWoZ8gz3K3ihnmcm8ZYaDhRVOcCIn3TcLpkrHz56Trw"

/-- The fields of the ES512-header `licenseValidation` object. -/
def es512ValidationFields : List (String × Json) :=
  [("payload", .str payloadSeg), ("protected", .str es512ProtectedSeg),
   ("signature", .str es512SignatureSeg)]

/-- The ES512-header `licenseValidation` object. -/
def es512ValidationJson : Json := .obj es512ValidationFields

/-- The crate's envelope whose protected header declares ES512 while the
payload and clear license are the known-good ones. -/
def es512Envelope : Json :=
  .obj [("license", testLicenseJson), ("licenseValidation", es512ValidationJson)]

/-- The decoded flattened signature structure of the ES512-header
`licenseValidation` object. -/
def es512Flattened : JwsFlattened :=
  (parseJwsFlattened es512ValidationJson).getD default

/-- The decoded flattened signature structure of the known-good
`licenseValidation` object. -/
def validFlattened : JwsFlattened :=
  (parseJwsFlattened validationJson).getD default

/-- The decoded payload bytes of the known-good envelope. -/
def payloadBytes : List Nat :=
  (b64urlDecode payloadSeg).getD []

/-- The crate's 4096-bit RS512 test JWK. -/
def testJwkJson : Json :=
  .obj [("alg", .str "RS512"), ("e", .str "AQAB"), ("kty", .str "RSA"),
        ("n", .str modulusB64)]

/-- The verifier built from the test JWK. -/
def testVerifier : LicenseVerifier :=
  ⟨⟨bytesToNat ((b64urlDecode modulusB64).getD []), 65537⟩⟩

/-- The crate's structurally-invalid key descriptor. -/
def nonJwkKeyJson : Json :=
  .obj [("random", .str "ABC"), ("someOtherField", .num 123456)]

/-- The crate's P-256 elliptic-curve key descriptor. -/
def ecKeyJson : Json :=
  .obj [("alg", .str "ES256"), ("crv", .str "P-256"), ("kty", .str "EC"),
        ("x", .str "6G267OCXrqG-Kr5RuHmUOO7OoRMItapzzG3z0I4pnEU"),
        ("y", .str "i3vOYB9DU-pbCS_vD0ob9X6jvWX2W-TZxF-tJ4sc710")]

/-- The crate's undersized (1024-bit) RSA key descriptor. -/
def smallRsaKeyJson : Json :=
  .obj [("alg", .str "RS512"), ("e", .str "AQAB"), ("kty", .str "RSA"),
        ("n", .str "xDfeAfrErnWVBQHeiD4VuZRLy6QXhTJG7LMkC9JZD33T-rTlKmXpY8uPHXxq04K5hVWBupn27FCbUiVaOJkmWoWfbiiIZC9vBgaF1d7p24te5JBTX-nHhTeySHH6AMx2Q78MDwkDQ7gv8PgfBp4j_66h3mVLRNvol-c13EPGz4M")]

/-- A stand-in for the trusted RSA primitive that accepts everything
(used to exercise the non-cryptographic stages at concrete inputs). -/
def rvTrue : RsaPublicKey → List Nat → List Nat → Bool := fun _ _ _ => true

/-- A stand-in for the trusted RSA primitive that rejects everything. -/
def rvFalse : RsaPublicKey → List Nat → List Nat → Bool := fun _ _ _ => false

/-- A stand-in for the trusted RSA primitive that accepts exactly the
message equal to the known-good signing input
`protectedSeg ++ "." ++ payloadSeg`. -/
def rvExpectData : RsaPublicKey → List Nat → List Nat → Bool :=
  fun _ msg _ => msg == strBytes (protectedSeg ++ "." ++ payloadSeg)

/-- Stage lemma: a failing structural decode into `VerifiableLicense`
reports `InvalidVerifiableLicense`. -/
theorem verify_stage1_fail (rv : RsaPublicKey → List Nat → List Nat → Bool)
    (v : LicenseVerifier) (json : Json)
    (h1 : parseVerifiableLicense json = none) :
    LicenseVerifier.verify rv v json = .error .InvalidVerifiableLicense := by
  simp only [LicenseVerifier.verify, h1]

/-- Stage lemma: a `licenseValidation` value that is not an object reports
`InvalidVerifiableLicense`. -/
theorem verify_stage2_fail (rv : RsaPublicKey → List Nat → List Nat → Bool)
    (v : LicenseVerifier) (json : Json) (vl : VerifiableLicense)
    (h1 : parseVerifiableLicense json = some vl)
    (h2 : vl.licenseValidation.asObject = none) :
    LicenseVerifier.verify rv v json = .error .InvalidVerifiableLicense := by
  simp only [LicenseVerifier.verify, h1, h2]

/-- Stage lemma: a missing or non-string `protected` member reports
`InvalidVerifiableLicense`. -/
theorem verify_stage3_fail (rv : RsaPublicKey → List Nat → List Nat → Bool)
    (v : LicenseVerifier) (json : Json) (vl : VerifiableLicense)
    (fs : List (String × Json))
    (h1 : parseVerifiableLicense json = some vl)
    (h2 : vl.licenseValidation.asObject = some fs)
    (h3 : (lookupField fs "protected").bind Json.asStr = none) :
    LicenseVerifier.verify rv v json = .error .InvalidVerifiableLicense := by
  simp only [LicenseVerifier.verify, h1, h2, h3]

/-- Stage lemma: a missing or non-string `payload` member reports
`InvalidVerifiableLicense`. -/
theorem verify_stage4_fail (rv : RsaPublicKey → List Nat → List Nat → Bool)
    (v : LicenseVerifier) (json : Json) (vl : VerifiableLicense)
    (fs : List (String × Json)) (p : String)
    (h1 : parseVerifiableLicense json = some vl)
    (h2 : vl.licenseValidation.asObject = some fs)
    (h3 : (lookupField fs "protected").bind Json.asStr = some p)
    (h4 : (lookupField fs "payload").bind Json.asStr = none) :
    LicenseVerifier.verify rv v json = .error .InvalidVerifiableLicense := by
  simp only [LicenseVerifier.verify, h1, h2, h3, h4]

/-- Stage lemma: a `licenseValidation` value that does not deserialize as a
`Jws` reports `InvalidVerifiableLicense`. -/
theorem verify_stage5_fail (rv : RsaPublicKey → List Nat → List Nat → Bool)
    (v : LicenseVerifier) (json : Json) (vl : VerifiableLicense)
    (fs : List (String × Json)) (p q : String)
    (h1 : parseVerifiableLicense json = some vl)
    (h2 : vl.licenseValidation.asObject = some fs)
    (h3 : (lookupField fs "protected").bind Json.asStr = some p)
    (h4 : (lookupField fs "payload").bind Json.asStr = some q)
    (h5 : parseJws vl.licenseValidation = none) :
    LicenseVerifier.verify rv v json = .error .InvalidVerifiableLicense := by
  simp only [LicenseVerifier.verify, h1, h2, h3, h4, h5]

/-- Stage lemma: a `licenseValidation` deserializing to the general
(multi-signature) shape reports `InvalidVerifiableLicense`. -/
theorem verify_stage5_general (rv : RsaPublicKey → List Nat → List Nat → Bool)
    (v : LicenseVerifier) (json : Json) (vl : VerifiableLicense)
    (fs : List (String × Json)) (p q : String) (g : JwsGeneral)
    (h1 : parseVerifiableLicense json = some vl)
    (h2 : vl.licenseValidation.asObject = some fs)
    (h3 : (lookupField fs "protected").bind Json.asStr = some p)
    (h4 : (lookupField fs "payload").bind Json.asStr = some q)
    (h5 : parseJws vl.licenseValidation = some (.general g)) :
    LicenseVerifier.verify rv v json = .error .InvalidVerifiableLicense := by
  simp only [LicenseVerifier.verify, h1, h2, h3, h4, h5]

/-- Stage lemma: a flattened signature with no payload reports
`InvalidVerifiableLicense`. -/
theorem verify_stage6_fail (rv : RsaPublicKey → List Nat → List Nat → Bool)
    (v : LicenseVerifier) (json : Json) (vl : VerifiableLicense)
    (fs : List (String × Json)) (p q : String) (f : JwsFlattened)
    (h1 : parseVerifiableLicense json = some vl)
    (h2 : vl.licenseValidation.asObject = some fs)
    (h3 : (lookupField fs "protected").bind Json.asStr = some p)
    (h4 : (lookupField fs "payload").bind Json.asStr = some q)
    (h5 : parseJws vl.licenseValidation = some (.flattened f))
    (h6 : f.payload = none) :
    LicenseVerifier.verify rv v json = .error .InvalidVerifiableLicense := by
  simp only [LicenseVerifier.verify, h1, h2, h3, h4, h5, h6]

/-- Stage lemma: payload bytes that do not deserialize to a `License`
report `InvalidVerifiableLicense`. -/
theorem verify_stage7_fail (rv : RsaPublicKey → List Nat → List Nat → Bool)
    (v : LicenseVerifier) (json : Json) (vl : VerifiableLicense)
    (fs : List (String × Json)) (p q : String) (f : JwsFlattened) (bs : List Nat)
    (h1 : parseVerifiableLicense json = some vl)
    (h2 : vl.licenseValidation.asObject = some fs)
    (h3 : (lookupField fs "protected").bind Json.asStr = some p)
    (h4 : (lookupField fs "payload").bind Json.asStr = some q)
    (h5 : parseJws vl.licenseValidation = some (.flattened f))
    (h6 : f.payload = some bs)
    (h7 : parseLicenseBytes bs = none) :
    LicenseVerifier.verify rv v json = .error .InvalidVerifiableLicense := by
  simp only [LicenseVerifier.verify, h1, h2, h3, h4, h5, h6, h7]

/-- Stage lemma: when all structural stages succeed and the decoded payload
license differs from the clear one, the result is `TamperedLicense`. -/
theorem verify_stage8_tampered (rv : RsaPublicKey → List Nat → List Nat → Bool)
    (v : LicenseVerifier) (json : Json) (vl : VerifiableLicense)
    (fs : List (String × Json)) (p q : String) (f : JwsFlattened) (bs : List Nat)
    (L : License)
    (h1 : parseVerifiableLicense json = some vl)
    (h2 : vl.licenseValidation.asObject = some fs)
    (h3 : (lookupField fs "protected").bind Json.asStr = some p)
    (h4 : (lookupField fs "payload").bind Json.asStr = some q)
    (h5 : parseJws vl.licenseValidation = some (.flattened f))
    (h6 : f.payload = some bs)
    (h7 : parseLicenseBytes bs = some L)
    (h8 : L ≠ vl.license) :
    LicenseVerifier.verify rv v json = .error .TamperedLicense := by
  simp only [LicenseVerifier.verify, h1, h2, h3, h4, h5, h6, h7]
  rw [if_pos h8]

/-- Stage lemma: when all structural stages succeed and the tamper check
passes, the result is decided by the cryptographic primitive applied to
the UTF-8 bytes of the verbatim segments joined by a dot and to the
decoded signature bytes. -/
theorem verify_stage9_crypto (rv : RsaPublicKey → List Nat → List Nat → Bool)
    (v : LicenseVerifier) (json : Json) (vl : VerifiableLicense)
    (fs : List (String × Json)) (p q : String) (f : JwsFlattened) (bs : List Nat)
    (L : License)
    (h1 : parseVerifiableLicense json = some vl)
    (h2 : vl.licenseValidation.asObject = some fs)
    (h3 : (lookupField fs "protected").bind Json.asStr = some p)
    (h4 : (lookupField fs "payload").bind Json.asStr = some q)
    (h5 : parseJws vl.licenseValidation = some (.flattened f))
    (h6 : f.payload = some bs)
    (h7 : parseLicenseBytes bs = some L)
    (h8 : L = vl.license) :
    LicenseVerifier.verify rv v json =
      (if rv v.rsaPublicKey (strBytes (p ++ "." ++ q)) f.signature.signature
       then .ok L else .error .VerificationFailure) := by
  simp only [LicenseVerifier.verify, h1, h2, h3, h4, h5, h6, h7]
  rw [if_neg (by simp [h8])]

/-- Inversion: a successful verification pins down every pipeline stage,
identifies the returned license with the payload-decoded one, equates it
with the clear license, and records that the cryptographic primitive
accepted the canonical signing input. -/
theorem verify_ok_inv (rv : RsaPublicKey → List Nat → List Nat → Bool)
    (v : LicenseVerifier) (json : Json) (L : License)
    (h : LicenseVerifier.verify rv v json = .ok L) :
    ∃ vl fs p q f bs,
      parseVerifiableLicense json = some vl ∧
      vl.licenseValidation.asObject = some fs ∧
      (lookupField fs "protected").bind Json.asStr = some p ∧
      (lookupField fs "payload").bind Json.asStr = some q ∧
      parseJws vl.licenseValidation = some (.flattened f) ∧
      f.payload = some bs ∧
      parseLicenseBytes bs = some L ∧
      L = vl.license ∧
      rv v.rsaPublicKey (strBytes (p ++ "." ++ q)) f.signature.signature = true := by
  unfold LicenseVerifier.verify at h
  split at h
  · simp at h
  rename_i vl h1
  split at h
  · simp at h
  rename_i fs h2
  split at h
  · simp at h
  rename_i p h3
  split at h
  · simp at h
  rename_i q h4
  split at h
  · simp at h
  · simp at h
  rename_i f h5
  split at h
  · simp at h
  rename_i bs h6
  split at h
  · simp at h
  rename_i L' h7
  split at h
  · simp at h
  rename_i hne
  dsimp only at h
  split at h
  · rename_i hrv
    rcases h with ⟨⟩
    push_neg at hne
    exact ⟨vl, fs, p, q, f, bs, h1, h2, h3, h4, h5, h6, h7, hne, hrv⟩
  · simp at h

/-- Inversion: a `VerificationFailure` result pins down every pipeline
stage, shows the tamper check passed, and records that the cryptographic
primitive rejected the canonical signing input. -/
theorem verify_failure_inv (rv : RsaPublicKey → List Nat → List Nat → Bool)
    (v : LicenseVerifier) (json : Json)
    (h : LicenseVerifier.verify rv v json = .error .VerificationFailure) :
    ∃ vl fs p q f bs L,
      parseVerifiableLicense json = some vl ∧
      vl.licenseValidation.asObject = some fs ∧
      (lookupField fs "protected").bind Json.asStr = some p ∧
      (lookupField fs "payload").bind Json.asStr = some q ∧
      parseJws vl.licenseValidation = some (.flattened f) ∧
      f.payload = some bs ∧
      parseLicenseBytes bs = some L ∧
      L = vl.license ∧
      rv v.rsaPublicKey (strBytes (p ++ "." ++ q)) f.signature.signature = false := by
  unfold LicenseVerifier.verify at h
  split at h
  · simp at h
  rename_i vl h1
  split at h
  · simp at h
  rename_i fs h2
  split at h
  · simp at h
  rename_i p h3
  split at h
  · simp at h
  rename_i q h4
  split at h
  · simp at h
  · simp at h
  rename_i f h5
  split at h
  · simp at h
  rename_i bs h6
  split at h
  · simp at h
  rename_i L' h7
  split at h
  · simp at h
  rename_i hne
  dsimp only at h
  split at h
  · simp at h
  · rename_i hrv
    push_neg at hne
    exact ⟨vl, fs, p, q, f, bs, L', h1, h2, h3, h4, h5, h6, h7, hne,
      Bool.eq_false_iff.mpr hrv⟩

/-- A successful `VerifiableLicense` decode stores the input's
`licenseValidation` member verbatim. -/
theorem parseVerifiableLicense_validation (json : Json) (vl : VerifiableLicense)
    (h : parseVerifiableLicense json = some vl) :
    jsonLookup json "licenseValidation" = some vl.licenseValidation := by
  unfold parseVerifiableLicense at h
  split at h
  · rename_i lj lv heq1 heq2
    rcases Option.map_eq_some'.mp h with ⟨l, _, hvl⟩
    rw [heq2, ← hvl]
  · simp at h

/-- A successful `VerifiableLicense` decode needs the `license` member. -/
theorem parseVerifiableLicense_license_mem (json : Json) (vl : VerifiableLicense)
    (h : parseVerifiableLicense json = some vl) :
    ∃ lj, jsonLookup json "license" = some lj := by
  unfold parseVerifiableLicense at h
  split at h
  · rename_i lj lv heq1 heq2
    exact ⟨lj, heq1⟩
  · simp at h

/-- Looking up a key in a value known to be an object reduces to field
lookup. -/
theorem jsonLookup_of_asObject (j : Json) (fs : List (String × Json)) (key : String)
    (h : j.asObject = some fs) : jsonLookup j key = lookupField fs key := by
  cases j <;> simp [Json.asObject] at h
  simp [jsonLookup, h]

/-- A value deserializing to the flattened signature shape carries a
string `signature` member. -/
theorem parseJws_flattened_signature_mem (j : Json) (f : JwsFlattened)
    (h : parseJws j = some (.flattened f)) :
    ∃ s, jsonLookup j "signature" = some (.str s) := by
  unfold parseJws at h
  split at h
  · simp at h
  rename_i hgen
  rcases Option.map_eq_some'.mp h with ⟨f', hf, hinj⟩
  unfold parseJwsFlattened at hf
  split at hf
  · rename_i fields
    split at hf
    · simp at hf
    rename_i pl hpl
    rcases Option.map_eq_some'.mp hf with ⟨sig, hsig, _⟩
    unfold parseJwsSignatureFields at hsig
    split at hsig
    · simp at hsig
    rename_i ph hph
    split at hsig
    · simp at hsig
    rename_i hd hhd
    split at hsig
    · rename_i s hs
      exact ⟨s, by rw [jsonLookup_of_asObject _ fields _ (by simp [Json.asObject]), hs]⟩
    · simp at hsig
  · simp at hf

/-- Inversion: a `TamperedLicense` result pins down every structural stage
and shows the decoded payload license differs from the clear one. -/
theorem verify_tampered_inv (rv : RsaPublicKey → List Nat → List Nat → Bool)
    (v : LicenseVerifier) (json : Json)
    (h : LicenseVerifier.verify rv v json = .error .TamperedLicense) :
    ∃ vl fs p q f bs L,
      parseVerifiableLicense json = some vl ∧
      vl.licenseValidation.asObject = some fs ∧
      (lookupField fs "protected").bind Json.asStr = some p ∧
      (lookupField fs "payload").bind Json.asStr = some q ∧
      parseJws vl.licenseValidation = some (.flattened f) ∧
      f.payload = some bs ∧
      parseLicenseBytes bs = some L ∧
      L ≠ vl.license := by
  unfold LicenseVerifier.verify at h
  split at h
  · simp at h
  rename_i vl h1
  split at h
  · simp at h
  rename_i fs h2
  split at h
  · simp at h
  rename_i p h3
  split at h
  · simp at h
  rename_i q h4
  split at h
  · simp at h
  · simp at h
  rename_i f h5
  split at h
  · simp at h
  rename_i bs h6
  split at h
  · simp at h
  rename_i L' h7
  split at h
  · rename_i hne
    exact ⟨vl, fs, p, q, f, bs, L', h1, h2, h3, h4, h5, h6, h7, hne⟩
  · rename_i hne
    dsimp only at h
    split at h <;> simp at h

/-- C1: for every structurally valid envelope (one that decodes to the
`VerifiableLicense` shape with a flattened signature structure whose
decoded payload deserializes to a `License`), if the `License` decoded
from the payload segment is not structurally equal to the caller-visible
`license` field, then `verify` returns `TamperedLicense` — for every
behaviour of the cryptographic primitive. -/
theorem claim_C1_tamper_detected (rv : RsaPublicKey → List Nat → List Nat → Bool)
    (v : LicenseVerifier) (json : Json) (vl : VerifiableLicense)
    (fs : List (String × Json)) (p q : String) (f : JwsFlattened) (bs : List Nat)
    (L : License)
    (h1 : parseVerifiableLicense json = some vl)
    (h2 : vl.licenseValidation.asObject = some fs)
    (h3 : (lookupField fs "protected").bind Json.asStr = some p)
    (h4 : (lookupField fs "payload").bind Json.asStr = some q)
    (h5 : parseJws vl.licenseValidation = some (.flattened f))
    (h6 : f.payload = some bs)
    (h7 : parseLicenseBytes bs = some L)
    (h8 : L ≠ vl.license) :
    LicenseVerifier.verify rv v json = .error .TamperedLicense :=
  verify_stage8_tampered rv v json vl fs p q f bs L h1 h2 h3 h4 h5 h6 h7 h8

/-- Witness for C1 at the crate's tampered envelope: the clear expiration
date was moved to 2025 while the signed payload still carries 2024. -/
theorem claim_C1_witness :
    LicenseVerifier.verify rvTrue testVerifier tamperedEnvelope =
      .error .TamperedLicense := by
  have h1 : parseVerifiableLicense tamperedEnvelope =
      some ⟨tamperedLicense, validationJson⟩ := by decide
  have h2 : validationJson.asObject = some validationFields := by decide
  have h3 : (lookupField validationFields "protected").bind Json.asStr =
      some protectedSeg := by decide
  have h4 : (lookupField validationFields "payload").bind Json.asStr =
      some payloadSeg := by decide
  have h5 : parseJws validationJson = some (.flattened validFlattened) := by decide
  have h6 : validFlattened.payload = some payloadBytes := by decide
  have h7 : parseLicenseBytes payloadBytes = some testLicense := by decide
  have h8 : testLicense ≠ tamperedLicense := by decide
  exact claim_C1_tamper_detected rvTrue testVerifier tamperedEnvelope
    ⟨tamperedLicense, validationJson⟩ validationFields protectedSeg payloadSeg
    validFlattened payloadBytes testLicense h1 h2 h3 h4 h5 h6 h7 h8

/-- C2: failures are classified in pipeline order.  (a) On any envelope
whose structural stages succeed but whose decoded payload license differs
from the clear `license` field, `verify` reports `TamperedLicense` for
every behaviour of the cryptographic primitive (the tamper check precedes
and is independent of signature verification).  (b) A `TamperedLicense`
report implies every structural stage succeeded (structural failures take
precedence over the tamper check).  (c) A `VerificationFailure` report
implies every structural stage succeeded and the tamper check passed —
signature verification is never the reported failure on an envelope that
already failed a structural step. -/
theorem claim_C2_pipeline_order (v : LicenseVerifier) (json : Json) :
    (∀ (rv : RsaPublicKey → List Nat → List Nat → Bool)
        (vl : VerifiableLicense) (fs : List (String × Json)) (p q : String)
        (f : JwsFlattened) (bs : List Nat) (L : License),
      parseVerifiableLicense json = some vl →
      vl.licenseValidation.asObject = some fs →
      (lookupField fs "protected").bind Json.asStr = some p →
      (lookupField fs "payload").bind Json.asStr = some q →
      parseJws vl.licenseValidation = some (.flattened f) →
      f.payload = some bs →
      parseLicenseBytes bs = some L →
      L ≠ vl.license →
      LicenseVerifier.verify rv v json = .error .TamperedLicense) ∧
    (∀ (rv : RsaPublicKey → List Nat → List Nat → Bool),
      LicenseVerifier.verify rv v json = .error .TamperedLicense →
      ∃ vl fs p q f bs L,
        parseVerifiableLicense json = some vl ∧
        vl.licenseValidation.asObject = some fs ∧
        (lookupField fs "protected").bind Json.asStr = some p ∧
        (lookupField fs "payload").bind Json.asStr = some q ∧
        parseJws vl.licenseValidation = some (.flattened f) ∧
        f.payload = some bs ∧
        parseLicenseBytes bs = some L ∧
        L ≠ vl.license) ∧
    (∀ (rv : RsaPublicKey → List Nat → List Nat → Bool),
      LicenseVerifier.verify rv v json = .error .VerificationFailure →
      ∃ vl fs p q f bs L,
        parseVerifiableLicense json = some vl ∧
        vl.licenseValidation.asObject = some fs ∧
        (lookupField fs "protected").bind Json.asStr = some p ∧
        (lookupField fs "payload").bind Json.asStr = some q ∧
        parseJws vl.licenseValidation = some (.flattened f) ∧
        f.payload = some bs ∧
        parseLicenseBytes bs = some L ∧
        L = vl.license ∧
        rv v.rsaPublicKey (strBytes (p ++ "." ++ q)) f.signature.signature = false) :=
  ⟨fun rv vl fs p q f bs L h1 h2 h3 h4 h5 h6 h7 h8 =>
      verify_stage8_tampered rv v json vl fs p q f bs L h1 h2 h3 h4 h5 h6 h7 h8,
   fun rv h => verify_tampered_inv rv v json h,
   fun rv h => verify_failure_inv rv v json h⟩

/-- Witness for C2 at the known-good envelope with an all-rejecting
cryptographic primitive: the `VerificationFailure` report implies every
structural stage succeeded and the tamper check passed. -/
theorem claim_C2_witness :
    ∃ vl fs p q f bs L,
      parseVerifiableLicense validEnvelope = some vl ∧
      vl.licenseValidation.asObject = some fs ∧
      (lookupField fs "protected").bind Json.asStr = some p ∧
      (lookupField fs "payload").bind Json.asStr = some q ∧
      parseJws vl.licenseValidation = some (.flattened f) ∧
      f.payload = some bs ∧
      parseLicenseBytes bs = some L ∧
      L = vl.license ∧
      rvFalse testVerifier.rsaPublicKey (strBytes (p ++ "." ++ q))
        f.signature.signature = false :=
  (claim_C2_pipeline_order testVerifier validEnvelope).2.2 rvFalse (by decide)

/-- C3: (a) whenever `verify` succeeds, the returned `License` is exactly
the value deserialized from the decoded payload segment — never merely the
caller-supplied `license` field.  (b) Round trip: on any envelope whose
structural stages succeed, whose payload deserializes to the same
`License` as the clear field, and whose signature the cryptographic
primitive accepts, `verify` returns exactly that payload-decoded value. -/
theorem claim_C3_returns_signed_value (v : LicenseVerifier) (json : Json) :
    (∀ (rv : RsaPublicKey → List Nat → List Nat → Bool) (L : License),
      LicenseVerifier.verify rv v json = .ok L →
      ∃ vl fs p q f bs,
        parseVerifiableLicense json = some vl ∧
        vl.licenseValidation.asObject = some fs ∧
        (lookupField fs "protected").bind Json.asStr = some p ∧
        (lookupField fs "payload").bind Json.asStr = some q ∧
        parseJws vl.licenseValidation = some (.flattened f) ∧
        f.payload = some bs ∧
        parseLicenseBytes bs = some L) ∧
    (∀ (rv : RsaPublicKey → List Nat → List Nat → Bool)
        (vl : VerifiableLicense) (fs : List (String × Json)) (p q : String)
        (f : JwsFlattened) (bs : List Nat) (L : License),
      parseVerifiableLicense json = some vl →
      vl.licenseValidation.asObject = some fs →
      (lookupField fs "protected").bind Json.asStr = some p →
      (lookupField fs "payload").bind Json.asStr = some q →
      parseJws vl.licenseValidation = some (.flattened f) →
      f.payload = some bs →
      parseLicenseBytes bs = some L →
      L = vl.license →
      rv v.rsaPublicKey (strBytes (p ++ "." ++ q)) f.signature.signature = true →
      LicenseVerifier.verify rv v json = .ok L) := by
  constructor
  · intro rv L h
    obtain ⟨vl, fs, p, q, f, bs, h1, h2, h3, h4, h5, h6, h7, _, _⟩ :=
      verify_ok_inv rv v json L h
    exact ⟨vl, fs, p, q, f, bs, h1, h2, h3, h4, h5, h6, h7⟩
  · intro rv vl fs p q f bs L h1 h2 h3 h4 h5 h6 h7 h8 h9
    rw [verify_stage9_crypto rv v json vl fs p q f bs L h1 h2 h3 h4 h5 h6 h7 h8, h9]
    rfl

/-- Witness for C3 at the known-good envelope: with the signing input
accepted, `verify` returns exactly the payload-decoded test license. -/
theorem claim_C3_witness :
    LicenseVerifier.verify rvTrue testVerifier validEnvelope = .ok testLicense := by
  have h1 : parseVerifiableLicense validEnvelope =
      some ⟨testLicense, validationJson⟩ := by decide
  have h2 : validationJson.asObject = some validationFields := by decide
  have h3 : (lookupField validationFields "protected").bind Json.asStr =
      some protectedSeg := by decide
  have h4 : (lookupField validationFields "payload").bind Json.asStr =
      some payloadSeg := by decide
  have h5 : parseJws validationJson = some (.flattened validFlattened) := by decide
  have h6 : validFlattened.payload = some payloadBytes := by decide
  have h7 : parseLicenseBytes payloadBytes = some testLicense := by decide
  have h9 : rvTrue testVerifier.rsaPublicKey
      (strBytes (protectedSeg ++ "." ++ payloadSeg))
      validFlattened.signature.signature = true := by decide
  exact (claim_C3_returns_signed_value testVerifier validEnvelope).2 rvTrue
    ⟨testLicense, validationJson⟩ validationFields protectedSeg payloadSeg
    validFlattened payloadBytes testLicense h1 h2 h3 h4 h5 h6 h7 rfl h9

/-- C4: the byte string submitted to the cryptographic primitive is exactly
the `protected` segment string, one dot, and the `payload` segment string,
both taken verbatim (in already-encoded form) from the envelope's
`licenseValidation` object: once the structural stages and the tamper
check pass, the verdict equals the primitive's verdict on precisely
`strBytes (p ++ "." ++ q)` and the decoded signature bytes. -/
theorem claim_C4_signing_input (rv : RsaPublicKey → List Nat → List Nat → Bool)
    (v : LicenseVerifier) (json : Json) (vl : VerifiableLicense)
    (fs : List (String × Json)) (p q : String) (f : JwsFlattened) (bs : List Nat)
    (L : License)
    (h1 : parseVerifiableLicense json = some vl)
    (h2 : vl.licenseValidation.asObject = some fs)
    (h3 : (lookupField fs "protected").bind Json.asStr = some p)
    (h4 : (lookupField fs "payload").bind Json.asStr = some q)
    (h5 : parseJws vl.licenseValidation = some (.flattened f))
    (h6 : f.payload = some bs)
    (h7 : parseLicenseBytes bs = some L)
    (h8 : L = vl.license) :
    LicenseVerifier.verify rv v json =
      (if rv v.rsaPublicKey (strBytes (p ++ "." ++ q)) f.signature.signature
       then .ok L else .error .VerificationFailure) :=
  verify_stage9_crypto rv v json vl fs p q f bs L h1 h2 h3 h4 h5 h6 h7 h8

/-- Witness for C4 at the known-good envelope, with a cryptographic
primitive that accepts exactly the message equal to the UTF-8 bytes of
`protectedSeg ++ "." ++ payloadSeg`: verification succeeds, so that exact
byte string is what was submitted. -/
theorem claim_C4_witness :
    LicenseVerifier.verify rvExpectData testVerifier validEnvelope = .ok testLicense := by
  have h1 : parseVerifiableLicense validEnvelope =
      some ⟨testLicense, validationJson⟩ := by decide
  have h2 : validationJson.asObject = some validationFields := by decide
  have h3 : (lookupField validationFields "protected").bind Json.asStr =
      some protectedSeg := by decide
  have h4 : (lookupField validationFields "payload").bind Json.asStr =
      some payloadSeg := by decide
  have h5 : parseJws validationJson = some (.flattened validFlattened) := by decide
  have h6 : validFlattened.payload = some payloadBytes := by decide
  have h7 : parseLicenseBytes payloadBytes = some testLicense := by decide
  exact (claim_C4_signing_input rvExpectData testVerifier validEnvelope
    ⟨testLicense, validationJson⟩ validationFields protectedSeg payloadSeg
    validFlattened payloadBytes testLicense h1 h2 h3 h4 h5 h6 h7 rfl).trans
    (by decide)

/-- C6: on every structurally valid, non-tampered envelope whose signature
the cryptographic primitive rejects — which covers corrupted signature
bytes, a signature from a different key, and a protected header declaring
an algorithm other than the fixed RS512 the primitive implements —
`verify` fails with `VerificationFailure`. -/
theorem claim_C6_verification_failure (rv : RsaPublicKey → List Nat → List Nat → Bool)
    (v : LicenseVerifier) (json : Json) (vl : VerifiableLicense)
    (fs : List (String × Json)) (p q : String) (f : JwsFlattened) (bs : List Nat)
    (L : License)
    (h1 : parseVerifiableLicense json = some vl)
    (h2 : vl.licenseValidation.asObject = some fs)
    (h3 : (lookupField fs "protected").bind Json.asStr = some p)
    (h4 : (lookupField fs "payload").bind Json.asStr = some q)
    (h5 : parseJws vl.licenseValidation = some (.flattened f))
    (h6 : f.payload = some bs)
    (h7 : parseLicenseBytes bs = some L)
    (h8 : L = vl.license)
    (h9 : rv v.rsaPublicKey (strBytes (p ++ "." ++ q)) f.signature.signature = false) :
    LicenseVerifier.verify rv v json = .error .VerificationFailure := by
  rw [verify_stage9_crypto rv v json vl fs p q f bs L h1 h2 h3 h4 h5 h6 h7 h8, h9]
  rfl

/-- Witness for C6 at the crate's ES512-header envelope (a protected header
declaring an algorithm the bound key does not implement) with a rejecting
primitive: the reported failure is `VerificationFailure`, not a structural
error. -/
theorem claim_C6_witness :
    LicenseVerifier.verify rvFalse testVerifier es512Envelope =
      .error .VerificationFailure := by
  have h1 : parseVerifiableLicense es512Envelope =
      some ⟨testLicense, es512ValidationJson⟩ := by decide
  have h2 : es512ValidationJson.asObject = some es512ValidationFields := by decide
  have h3 : (lookupField es512ValidationFields "protected").bind Json.asStr =
      some es512ProtectedSeg := by decide
  have h4 : (lookupField es512ValidationFields "payload").bind Json.asStr =
      some payloadSeg := by decide
  have h5 : parseJws es512ValidationJson = some (.flattened es512Flattened) := by decide
  have h6 : es512Flattened.payload = some payloadBytes := by decide
  have h7 : parseLicenseBytes payloadBytes = some testLicense := by decide
  exact claim_C6_verification_failure rvFalse testVerifier es512Envelope
    ⟨testLicense, es512ValidationJson⟩ es512ValidationFields es512ProtectedSeg
    payloadSeg es512Flattened payloadBytes testLicense h1 h2 h3 h4 h5 h6 h7 rfl rfl

/-- A `licenseValidation` object whose three members are all present but
whose `signature` member is a number: it deserializes to neither `Jws`
shape, so it is not in the flattened single-signature shape. -/
def numSigValidationJson : Json :=
  .obj [("payload", .str payloadSeg), ("protected", .str protectedSeg),
        ("signature", .num 42)]

/-- An envelope whose `licenseValidation` carries a numeric `signature`
member. -/
def numSigEnvelope : Json :=
  .obj [("license", testLicenseJson), ("licenseValidation", numSigValidationJson)]

/-- C5: schema rejection.  An input missing the `license` member, missing
the `licenseValidation` member, or whose `licenseValidation` lacks any of
the `protected`, `payload` or `signature` members (including a misspelled
signature field), and an input whose `licenseValidation` is not in the
flattened single-signature shape — whether it deserializes to the general
multi-signature shape or fails `Jws` deserialization altogether (for
example a non-string or undecodable member) — all fail with
`InvalidVerifiableLicense` — never with a different error kind. -/
theorem claim_C5_schema_rejection (rv : RsaPublicKey → List Nat → List Nat → Bool)
    (v : LicenseVerifier) (json : Json) :
    (jsonLookup json "license" = none →
      LicenseVerifier.verify rv v json = .error .InvalidVerifiableLicense) ∧
    (jsonLookup json "licenseValidation" = none →
      LicenseVerifier.verify rv v json = .error .InvalidVerifiableLicense) ∧
    (∀ lv, jsonLookup json "licenseValidation" = some lv →
      jsonLookup lv "protected" = none →
      LicenseVerifier.verify rv v json = .error .InvalidVerifiableLicense) ∧
    (∀ lv, jsonLookup json "licenseValidation" = some lv →
      jsonLookup lv "payload" = none →
      LicenseVerifier.verify rv v json = .error .InvalidVerifiableLicense) ∧
    (∀ lv, jsonLookup json "licenseValidation" = some lv →
      jsonLookup lv "signature" = none →
      LicenseVerifier.verify rv v json = .error .InvalidVerifiableLicense) ∧
    (∀ lv g, jsonLookup json "licenseValidation" = some lv →
      parseJws lv = some (.general g) →
      LicenseVerifier.verify rv v json = .error .InvalidVerifiableLicense) ∧
    (∀ lv, jsonLookup json "licenseValidation" = some lv →
      (∀ f, parseJws lv ≠ some (.flattened f)) →
      LicenseVerifier.verify rv v json = .error .InvalidVerifiableLicense) := by
  refine ⟨?_, ?_, ?_, ?_, ?_, ?_, ?_⟩
  · intro h
    refine verify_stage1_fail rv v json ?_
    simp only [parseVerifiableLicense, h]
  · intro h
    refine verify_stage1_fail rv v json ?_
    unfold parseVerifiableLicense
    rw [h]
    cases jsonLookup json "license" <;> rfl
  · intro lv h hm
    cases hp : parseVerifiableLicense json with
    | none => exact verify_stage1_fail rv v json hp
    | some vl =>
      have hv := parseVerifiableLicense_validation json vl hp
      rw [h] at hv
      obtain rfl : lv = vl.licenseValidation := Option.some.inj hv
      cases ho : vl.licenseValidation.asObject with
      | none => exact verify_stage2_fail rv v json vl hp ho
      | some fs =>
        have hf : lookupField fs "protected" = none := by
          rw [← jsonLookup_of_asObject _ fs _ ho]
          exact hm
        exact verify_stage3_fail rv v json vl fs hp ho (by rw [hf]; rfl)
  · intro lv h hm
    cases hp : parseVerifiableLicense json with
    | none => exact verify_stage1_fail rv v json hp
    | some vl =>
      have hv := parseVerifiableLicense_validation json vl hp
      rw [h] at hv
      obtain rfl : lv = vl.licenseValidation := Option.some.inj hv
      cases ho : vl.licenseValidation.asObject with
      | none => exact verify_stage2_fail rv v json vl hp ho
      | some fs =>
        cases hprot : (lookupField fs "protected").bind Json.asStr with
        | none => exact verify_stage3_fail rv v json vl fs hp ho hprot
        | some p =>
          have hf : lookupField fs "payload" = none := by
            rw [← jsonLookup_of_asObject _ fs _ ho]
            exact hm
          exact verify_stage4_fail rv v json vl fs p hp ho hprot (by rw [hf]; rfl)
  · intro lv h hm
    cases hp : parseVerifiableLicense json with
    | none => exact verify_stage1_fail rv v json hp
    | some vl =>
      have hv := parseVerifiableLicense_validation json vl hp
      rw [h] at hv
      obtain rfl : lv = vl.licenseValidation := Option.some.inj hv
      cases ho : vl.licenseValidation.asObject with
      | none => exact verify_stage2_fail rv v json vl hp ho
      | some fs =>
        cases hprot : (lookupField fs "protected").bind Json.asStr with
        | none => exact verify_stage3_fail rv v json vl fs hp ho hprot
        | some p =>
          cases hpay : (lookupField fs "payload").bind Json.asStr with
          | none => exact verify_stage4_fail rv v json vl fs p hp ho hprot hpay
          | some q =>
            cases hjws : parseJws vl.licenseValidation with
            | none => exact verify_stage5_fail rv v json vl fs p q hp ho hprot hpay hjws
            | some jws =>
              cases jws with
              | general g =>
                exact verify_stage5_general rv v json vl fs p q g hp ho hprot hpay hjws
              | flattened f =>
                obtain ⟨s, hs⟩ := parseJws_flattened_signature_mem _ f hjws
                rw [hm] at hs
                exact absurd hs (by simp)
  · intro lv g h hj
    cases hp : parseVerifiableLicense json with
    | none => exact verify_stage1_fail rv v json hp
    | some vl =>
      have hv := parseVerifiableLicense_validation json vl hp
      rw [h] at hv
      obtain rfl : lv = vl.licenseValidation := Option.some.inj hv
      cases ho : vl.licenseValidation.asObject with
      | none => exact verify_stage2_fail rv v json vl hp ho
      | some fs =>
        cases hprot : (lookupField fs "protected").bind Json.asStr with
        | none => exact verify_stage3_fail rv v json vl fs hp ho hprot
        | some p =>
          cases hpay : (lookupField fs "payload").bind Json.asStr with
          | none => exact verify_stage4_fail rv v json vl fs p hp ho hprot hpay
          | some q =>
            exact verify_stage5_general rv v json vl fs p q g hp ho hprot hpay hj
  · intro lv h hnf
    cases hp : parseVerifiableLicense json with
    | none => exact verify_stage1_fail rv v json hp
    | some vl =>
      have hv := parseVerifiableLicense_validation json vl hp
      rw [h] at hv
      obtain rfl : lv = vl.licenseValidation := Option.some.inj hv
      cases ho : vl.licenseValidation.asObject with
      | none => exact verify_stage2_fail rv v json vl hp ho
      | some fs =>
        cases hprot : (lookupField fs "protected").bind Json.asStr with
        | none => exact verify_stage3_fail rv v json vl fs hp ho hprot
        | some p =>
          cases hpay : (lookupField fs "payload").bind Json.asStr with
          | none => exact verify_stage4_fail rv v json vl fs p hp ho hprot hpay
          | some q =>
            cases hjws : parseJws vl.licenseValidation with
            | none => exact verify_stage5_fail rv v json vl fs p q hp ho hprot hpay hjws
            | some jws =>
              cases jws with
              | general g =>
                exact verify_stage5_general rv v json vl fs p q g hp ho hprot hpay hjws
              | flattened f => exact absurd hjws (hnf f)

/-- Witness for C5 at two envelopes: the crate's misspelled-signature
envelope (no `signature` member at all) and the numeric-signature envelope
(all three members present but `licenseValidation` deserializable to
neither `Jws` shape); both report `InvalidVerifiableLicense`. -/
theorem claim_C5_witness :
    LicenseVerifier.verify rvTrue testVerifier nonJwsEnvelope =
      .error .InvalidVerifiableLicense ∧
    LicenseVerifier.verify rvTrue testVerifier numSigEnvelope =
      .error .InvalidVerifiableLicense := by
  constructor
  · have h : jsonLookup nonJwsEnvelope "licenseValidation" =
        some nonJwsValidationJson := by decide
    have hm : jsonLookup nonJwsValidationJson "signature" = none := by decide
    exact (claim_C5_schema_rejection rvTrue testVerifier nonJwsEnvelope).2.2.2.2.1
      nonJwsValidationJson h hm
  · have h : jsonLookup numSigEnvelope "licenseValidation" =
        some numSigValidationJson := by decide
    have hnf : ∀ f, parseJws numSigValidationJson ≠ some (.flattened f) := by
      intro f hf
      rw [(by decide : parseJws numSigValidationJson = none)] at hf
      exact Option.noConfusion hf
    exact (claim_C5_schema_rejection rvTrue testVerifier numSigEnvelope).2.2.2.2.2.2
      numSigValidationJson h hnf

/-- The parsed JWK of the crate's undersized RSA key descriptor. -/
def smallRsaJwk : Jwk := (parseJwk smallRsaKeyJson).getD ⟨default, none⟩

/-- The parsed JWK of the crate's elliptic-curve key descriptor. -/
def ecJwk : Jwk := (parseJwk ecKeyJson).getD ⟨default, none⟩

/-- The parsed JWK of the crate's 4096-bit RS512 key descriptor. -/
def testJwk : Jwk := (parseJwk testJwkJson).getD ⟨default, none⟩

/-- C7: construction errors are classified as follows.  (a) A descriptor
that does not deserialize as a JWK fails with `KeyIsNotJwk`.  (b) A parsed
key that does not declare support for RS512 (which covers every non-RSA
key kind and RSA keys whose modulus is too small) fails with
`KeyTypeNotSupported`.  (c) A parsed RSA key whose parameters cannot be
turned into a usable public key fails with `KeyTypeNotSupported`.  (d) A
parsed non-RSA key fails with `KeyTypeNotSupported` on every path.  (e)
Any other descriptor — parsed, RS512-supporting, with usable RSA
parameters — yields a verifier holding exactly that key. -/
theorem claim_C7_construction_errors (key : Json) :
    (parseJwk key = none → LicenseVerifier.new key = .error .KeyIsNotJwk) ∧
    (∀ k, parseJwk key = some k → jwkIsSupportedRs512 k = false →
      LicenseVerifier.new key = .error .KeyTypeNotSupported) ∧
    (∀ k nB eB, parseJwk key = some k → k.key = .rsa nB eB →
      rsaTryFrom nB eB = none →
      LicenseVerifier.new key = .error .KeyTypeNotSupported) ∧
    (∀ k, parseJwk key = some k → (∀ nB eB, k.key ≠ .rsa nB eB) →
      LicenseVerifier.new key = .error .KeyTypeNotSupported) ∧
    (∀ k nB eB r, parseJwk key = some k → jwkIsSupportedRs512 k = true →
      k.key = .rsa nB eB → rsaTryFrom nB eB = some r →
      LicenseVerifier.new key = .ok ⟨r⟩) := by
  refine ⟨?_, ?_, ?_, ?_, ?_⟩
  · intro h
    simp [LicenseVerifier.new, h]
  · intro k h1 h2
    simp [LicenseVerifier.new, h1, h2]
  · intro k nB eB h1 hk ht
    cases hs : jwkIsSupportedRs512 k with
    | false => simp [LicenseVerifier.new, h1, hs]
    | true => simp [LicenseVerifier.new, h1, hs, hk, ht]
  · intro k h1 hnr
    cases hs : jwkIsSupportedRs512 k with
    | false => simp [LicenseVerifier.new, h1, hs]
    | true =>
      cases hk : k.key with
      | rsa nB eB => exact absurd hk (hnr nB eB)
      | ec crv => simp [LicenseVerifier.new, h1, hs, hk]
      | oct kk => simp [LicenseVerifier.new, h1, hs, hk]
      | okp crv => simp [LicenseVerifier.new, h1, hs, hk]
  · intro k nB eB r h1 hs hk ht
    simp [LicenseVerifier.new, h1, hs, hk, ht]

/-- Witness for C7 at the crate's four key descriptors: the non-JWK value,
the P-256 key, the 1024-bit RSA key, and the good 4096-bit RS512 key. -/
theorem claim_C7_witness :
    LicenseVerifier.new nonJwkKeyJson = .error .KeyIsNotJwk ∧
    LicenseVerifier.new ecKeyJson = .error .KeyTypeNotSupported ∧
    LicenseVerifier.new smallRsaKeyJson = .error .KeyTypeNotSupported ∧
    LicenseVerifier.new testJwkJson = .ok testVerifier := by
  refine ⟨?_, ?_, ?_, ?_⟩
  · exact (claim_C7_construction_errors nonJwkKeyJson).1 (by decide)
  · exact (claim_C7_construction_errors ecKeyJson).2.1 ecJwk (by decide) (by decide)
  · exact (claim_C7_construction_errors smallRsaKeyJson).2.1 smallRsaJwk
      (by decide) (by decide)
  · exact (claim_C7_construction_errors testJwkJson).2.2.2.2 testJwk
      ((b64urlDecode modulusB64).getD []) [1, 0, 1] testVerifier.rsaPublicKey
      (by decide) (by decide) (by decide) (by decide)

/-- C8: totality.  Over every JSON input, `LicenseVerifier::new` returns a
verifier or one of its two classified errors, and `LicenseVerifier::verify`
returns a license or one of its three classified errors; no other outcome
(and in particular no panic and no partial result) exists in the model of
either operation. -/
theorem claim_C8_totality (key json : Json)
    (rv : RsaPublicKey → List Nat → List Nat → Bool) (v : LicenseVerifier) :
    ((∃ ver, LicenseVerifier.new key = .ok ver) ∨
      LicenseVerifier.new key = .error .KeyIsNotJwk ∨
      LicenseVerifier.new key = .error .KeyTypeNotSupported) ∧
    ((∃ L, LicenseVerifier.verify rv v json = .ok L) ∨
      LicenseVerifier.verify rv v json = .error .InvalidVerifiableLicense ∨
      LicenseVerifier.verify rv v json = .error .TamperedLicense ∨
      LicenseVerifier.verify rv v json = .error .VerificationFailure) := by
  constructor
  · cases LicenseVerifier.new key with
    | ok ver => exact .inl ⟨ver, rfl⟩
    | error e =>
      cases e with
      | KeyIsNotJwk => exact .inr (.inl rfl)
      | KeyTypeNotSupported => exact .inr (.inr rfl)
  · cases LicenseVerifier.verify rv v json with
    | ok L => exact .inl ⟨L, rfl⟩
    | error e =>
      cases e with
      | InvalidVerifiableLicense => exact .inr (.inl rfl)
      | TamperedLicense => exact .inr (.inr (.inl rfl))
      | VerificationFailure => exact .inr (.inr (.inr rfl))

/-- A clear-text license value that is textually different from the signed
payload but semantically identical: the UUID in upper case and the same
instant written with a `+02:00` offset. -/
def altClearLicenseJson : Json :=
  .obj [("customData", .obj [("owner", .str "John Doe")]),
        ("expirationDate", .str "2024-10-01T02:00:00+02:00"),
        ("id", .str "0B5B88F5-A264-4F90-8406-50B01D9515C8")]

/-- The known-good envelope with the clear license replaced by its
textually different but semantically equal variant. -/
def altClearEnvelope : Json :=
  .obj [("license", altClearLicenseJson), ("licenseValidation", validationJson)]

/-- C9: the tamper check compares parsed `License` values, not wire bytes.
The decoded payload of the known-good envelope is the JSON value
`testLicenseJson`; the variant clear field `altClearLicenseJson` differs
from it as a JSON value (upper-case UUID, offset datetime), yet both parse
to the same `License`, and an envelope carrying the variant clear field
over the original signed payload passes the tamper check and verifies
successfully rather than failing with `TamperedLicense`. -/
theorem claim_C9_parsed_value_comparison :
    jsonParseBytes payloadBytes = some testLicenseJson ∧
    altClearLicenseJson ≠ testLicenseJson ∧
    parseLicense altClearLicenseJson = some testLicense ∧
    parseLicense testLicenseJson = some testLicense ∧
    LicenseVerifier.verify rvTrue testVerifier altClearEnvelope = .ok testLicense :=
  ⟨by decide, by decide, by decide, by decide, by decide⟩

/-- The known-good clear license object with an extra unrecognized
member. -/
def extrasLicenseJson : Json :=
  .obj [("customData", .obj [("owner", .str "John Doe")]),
        ("expirationDate", .str "2024-10-01T00:00:00Z"),
        ("extraInner", .bool true),
        ("id", .str "0b5b88f5-a264-4f90-8406-50b01d9515c8")]

/-- The known-good `licenseValidation` object with an extra unrecognized
member. -/
def extrasValidationJson : Json :=
  .obj [("extraVal", .str "x"), ("payload", .str payloadSeg),
        ("protected", .str protectedSeg), ("signature", .str signatureSeg)]

/-- An envelope carrying unrecognized members at the top level, inside the
`license` object and inside the `licenseValidation` object, alongside the
known-good required members. -/
def extrasEnvelope : Json :=
  .obj [("extraTop", .num 1), ("license", extrasLicenseJson),
        ("licenseValidation", extrasValidationJson)]

/-- C10: unknown extra fields are ignored.  `extrasEnvelope` carries
unrecognized members at the envelope top level (`extraTop`), inside the
`license` object (`extraInner`) and inside the `licenseValidation` object
(`extraVal`), and still verifies successfully to the same license as the
known-good envelope. -/
theorem claim_C10_extra_fields_ignored :
    jsonLookup extrasEnvelope "extraTop" = some (.num 1) ∧
    jsonLookup extrasEnvelope "license" = some extrasLicenseJson ∧
    jsonLookup extrasLicenseJson "extraInner" = some (.bool true) ∧
    jsonLookup extrasEnvelope "licenseValidation" = some extrasValidationJson ∧
    jsonLookup extrasValidationJson "extraVal" = some (.str "x") ∧
    LicenseVerifier.verify rvTrue testVerifier extrasEnvelope = .ok testLicense :=
  ⟨by decide, by decide, by decide, by decide, by decide, by decide⟩
